import Mathlib

/-!
Verification of the store-locator backend (search, caching, authentication,
bulk import).  The definitions below are a shallow embedding of the Python
source:

  * project/app/routers/search.py   (search endpoint)
  * project/app/routers/auth.py     (login / refresh / logout)
  * project/app/routers/stores.py   (store CRUD)
  * project/app/routers/admin.py    (bulk CSV import)
  * project/app/schemas.py          (pydantic request validation)
  * project/app/utils/cache.py      (SimpleCache)
  * final-project/app/utils/distance.py (calculate_bounding_box,
      is_store_open_now; this is the repository's app.utils.distance module,
      the copy imported by search.py)
  * final-project/app/models.py     (enums, ORM columns)

Machine reals of the source are modelled with the rationals; the two
transcendental spots (math.cos/math.radians inside the bounding box, and the
geopy geodesic distance) are treated as external collaborators: the search
pipeline is parameterised over them, and the C4 analysis of the bounding box
itself is carried out over the real numbers with Real.cos.

Python truthiness is modelled explicitly (0.0, "", [] and None are falsy):
the source tests optional floats, strings and lists with bare `if x`, and
several behaviours hinge on that.
-/

namespace StoreLocator

/-! ### Python truthiness -/

/-- Truthiness of an Optional[float]: None and 0.0 are falsy. -/
def truthyF (x : Option ℚ) : Bool :=
  match x with
  | none => false
  | some v => decide (v ≠ 0)

/-- Truthiness of an Optional[str]: None and the empty string are falsy. -/
def truthyS (x : Option String) : Bool :=
  match x with
  | none => false
  | some s => decide (s ≠ "")

/-- Truthiness of an Optional[list]: None and the empty list are falsy. -/
def truthyL {α : Type} [DecidableEq α] (x : Option (List α)) : Bool :=
  match x with
  | none => false
  | some l => decide (l ≠ [])

/-- Truthiness of an Optional[bool]: only `Some true` is truthy. -/
def truthyB (x : Option Bool) : Bool :=
  match x with
  | none => false
  | some b => b

/-! ### Python string primitives

ASCII models of str.strip() / str.split(sep) / str.lower(), written as
structural recursion over character lists so that every concrete instance
reduces inside the kernel.  (Unicode whitespace, digits and case folding,
which CPython also accepts, are outside this model.) -/

/-- ASCII whitespace stripped by str.strip() and by int()/float(). -/
def isPyWS (c : Char) : Bool :=
  c.toNat = 32 ∨ c.toNat = 9 ∨ c.toNat = 10 ∨ c.toNat = 11 ∨ c.toNat = 12 ∨ c.toNat = 13

/-- str.strip() on a character list. -/
def trimChars (cs : List Char) : List Char :=
  ((cs.dropWhile isPyWS).reverse.dropWhile isPyWS).reverse

/-- str.split(sep) for a one-character separator: "".split(sep) is [""],
separators at the ends produce empty pieces. -/
def splitOnChar (sep : Char) : List Char → List (List Char)
  | [] => [[]]
  | c :: rest =>
      if c = sep then [] :: splitOnChar sep rest
      else
        match splitOnChar sep rest with
        | h :: t => (c :: h) :: t
        | [] => [[c]]

/-- str.lower() on ASCII letters. -/
def pyLower (s : String) : String :=
  (s.data.map (fun c =>
    if 'A' ≤ c ∧ c ≤ 'Z' then Char.ofNat (c.toNat + 32) else c)).asString

/-! ### Python int() parsing (ASCII fragment)

Python's int(str) strips surrounding whitespace, accepts an optional sign and
a nonempty run of digits in which single underscores may appear between
digits. -/

/-- Digit-run grammar of a Python int literal body: nonempty, underscores only
between digits. -/
def pyDigitsCore : List Char → Bool
  | [] => false
  | [c] => c.isDigit
  | c :: '_' :: rest => c.isDigit && pyDigitsCore rest
  | c :: rest => c.isDigit && pyDigitsCore rest

/-- Numeric value of a digit run (underscores removed by the caller). -/
def digitsToNat (cs : List Char) : ℕ :=
  cs.foldl (fun a c => a * 10 + (c.toNat - 48)) 0

/-- Value of an optionally signed digit run (no surrounding whitespace). -/
def pySignedInt (cs : List Char) : Option ℤ :=
  match cs with
  | '+' :: rest =>
      if pyDigitsCore rest then some (digitsToNat (rest.filter (fun c => c ≠ '_'))) else none
  | '-' :: rest =>
      if pyDigitsCore rest then some (-(digitsToNat (rest.filter (fun c => c ≠ '_')) : ℤ)) else none
  | _ =>
      if pyDigitsCore cs then some (digitsToNat (cs.filter (fun c => c ≠ '_'))) else none

/-- int(s) for ASCII decimal strings; None models ValueError. -/
def pyInt (s : String) : Option ℤ :=
  pySignedInt (trimChars s.data)

/-! ### Python float() parsing (finite decimal fragment)

float(str) on the decimal forms digits[.digits][e[sign]digits]; the
inf/nan spellings are outside this model. -/

/-- Split a character list at the first exponent marker. -/
def breakExp : List Char → List Char × Option (List Char)
  | [] => ([], none)
  | c :: cs =>
      if c = 'e' ∨ c = 'E' then ([], some cs)
      else
        let r := breakExp cs
        (c :: r.1, r.2)

/-- Split a character list at the first decimal point. -/
def breakDot : List Char → List Char × Option (List Char)
  | [] => ([], none)
  | c :: cs =>
      if c = '.' then ([], some cs)
      else
        let r := breakDot cs
        (c :: r.1, r.2)

/-- Mantissa value: integer part and optional fractional part, at least one of
which must be a nonempty digit run. -/
def pyMantissa (cs : List Char) : Option ℚ :=
  let p := breakDot cs
  match p.2 with
  | none => if pyDigitsCore p.1 then some (digitsToNat (p.1.filter (fun c => c ≠ '_'))) else none
  | some fracs =>
      let intOk := p.1 = [] ∨ pyDigitsCore p.1
      let fracOk := fracs = [] ∨ pyDigitsCore fracs
      if intOk ∧ fracOk ∧ ¬(p.1 = [] ∧ fracs = []) then
        let f := fracs.filter (fun c => c ≠ '_')
        some ((digitsToNat (p.1.filter (fun c => c ≠ '_')) : ℚ)
              + (digitsToNat f : ℚ) / (10 : ℚ) ^ f.length)
      else none

/-- float(s) for finite decimal strings; None models ValueError. -/
def pyFloat (s : String) : Option ℚ :=
  let cs := trimChars s.data
  let sgn : Bool × List Char :=
    match cs with
    | '+' :: r => (false, r)
    | '-' :: r => (true, r)
    | r => (false, r)
  let q := breakExp sgn.2
  let mant := pyMantissa q.1
  match mant with
  | none => none
  | some m =>
      let scaled : Option ℚ :=
        match q.2 with
        | none => some m
        | some es =>
            match pySignedInt es with
            | none => none
            | some e =>
                if 0 ≤ e then some (m * (10 : ℚ) ^ e.toNat)
                else some (m / (10 : ℚ) ^ (-e).toNat)
      match scaled with
      | none => none
      | some v => some (if sgn.1 then -v else v)

/-! ### GeoMath: opening hours (final-project/app/utils/distance.py,
is_store_open_now) -/

/-- Local time of day in microseconds for an HH:MM wall-clock value (the
source builds datetime times with second=0, microsecond=0). -/
def timeHM (h m : ℕ) : ℕ :=
  ((h * 60) + m) * 60 * 1000000

/-- Parse an "HH:MM-HH:MM" hours string exactly as the try-block of
is_store_open_now does: split on "-" into exactly two parts, split each on
":" into exactly two parts, convert with int(), then build times with
datetime.replace, which raises unless 0 <= hour <= 23 and 0 <= minute <= 59.
None models any exception caught by the bare except (which returns False). -/
def parseHours (s : String) : Option (ℕ × ℕ) :=
  match splitOnChar '-' s.data with
  | [o, c] =>
      match splitOnChar ':' o with
      | [oh, om] =>
          match splitOnChar ':' c with
          | [ch, cm] =>
              match pySignedInt (trimChars oh), pySignedInt (trimChars om),
                    pySignedInt (trimChars ch), pySignedInt (trimChars cm) with
              | some a, some b, some d, some e =>
                  if 0 ≤ a ∧ a ≤ 23 ∧ 0 ≤ b ∧ b ≤ 59 ∧ 0 ≤ d ∧ d ≤ 23 ∧ 0 ≤ e ∧ e ≤ 59 then
                    some (timeHM a.toNat b.toNat, timeHM d.toNat e.toNat)
                  else none
              | _, _, _, _ => none
          | _ => none
      | _ => none
  | _ => none

/-- is_store_open_now from final-project/app/utils/distance.py.  The hours
dict is a finite map day-index -> entry (Monday = 0, as datetime.weekday);
hours.get(key, "closed") is the getD.  The evaluation instant
(datetime.now()) is passed explicitly as weekday plus time of day in
microseconds.  "closed" returns False; a malformed entry falls into the bare
except and returns False; otherwise open_time <= current <= close_time. -/
def is_store_open_now (hours : Fin 7 → Option String) (weekday : Fin 7) (tod : ℕ) : Bool :=
  let today_hours := (hours weekday).getD "closed"
  if today_hours = "closed" then false
  else
    match parseHours today_hours with
    | none => false
    | some oc => decide (oc.1 ≤ tod ∧ tod ≤ oc.2)

/-! ### GeoMath: bounding box (final-project/app/utils/distance.py,
calculate_bounding_box), over the reals with the genuine cosine -/

/-- Result record of calculate_bounding_box. -/
structure BoundingBox where
  min_lat : ℝ
  max_lat : ℝ
  min_lon : ℝ
  max_lon : ℝ

/-- calculate_bounding_box(latitude, longitude, radius_miles): the exact
arithmetic of the source, with math.radians(x) = x * pi / 180 and math.cos =
Real.cos.  There is no branch on the latitude: the same division is applied
at every input, including latitude = +-90 where the denominator is zero in
real arithmetic.  (Lean evaluates x / 0 to 0; CPython's float cosine of
radians(90) is the tiny nonzero 6.123233995736766e-17, so the code there
returns an astronomically wide box.  Under neither semantics is the result
the full +-180 longitude span.) -/
noncomputable def calculate_bounding_box (latitude longitude radius_miles : ℝ) : BoundingBox :=
  let latitude_delta := radius_miles / 69
  let longitude_delta := radius_miles / (69 * Real.cos (latitude * Real.pi / 180))
  { min_lat := latitude - latitude_delta
    max_lat := latitude + latitude_delta
    min_lon := longitude - longitude_delta
    max_lon := longitude + longitude_delta }

/-! ### Rounding

round(x, 2) and the "%.4f" cache-key formatting both round half to even in
CPython (on the decimal rendering of the binary double; the binary noise in
exact ties is outside this rational model). -/

/-- Round a rational to the nearest integer, ties to even. -/
def roundHalfEven (x : ℚ) : ℤ :=
  let f := ⌊x⌋
  let r := x - f
  if r < 1 / 2 then f
  else if 1 / 2 < r then f + 1
  else if f % 2 = 0 then f else f + 1

/-- round(x, 2) on the distance put into the response. -/
def pyRound2 (x : ℚ) : ℚ :=
  (roundHalfEven (x * 100) : ℚ) / 100

/-- The integer payload of formatting a coordinate with "%.4f" (the value
scaled by 10^4, rounded): two coordinates render identically in the cache
key iff this agrees. -/
def fmt4 (x : ℚ) : ℤ :=
  roundHalfEven (x * 10000)

/-! ### Cache (project/app/utils/cache.py, SimpleCache)

The dict is modelled as an association list with at most one live binding
per key (set replaces).  datetime.utcnow() is the rational now argument. -/

structure CacheEntry (V : Type) where
  value : V
  expires_at : ℚ
  created_at : ℚ
deriving DecidableEq

structure SimpleCache (K V : Type) where
  entries : List (K × CacheEntry V)
deriving DecidableEq

/-- The process-wide cache starts empty; clear() also returns this. -/
def emptyCache (K V : Type) : SimpleCache K V := ⟨[]⟩

/-- get: absent -> None; expired (now strictly past expires_at) -> delete and
None; otherwise the stored value.  Returns the possibly-shrunk cache. -/
def SimpleCache.get {K V : Type} [DecidableEq K]
    (c : SimpleCache K V) (now : ℚ) (key : K) : Option V × SimpleCache K V :=
  match c.entries.find? (fun p => decide (p.1 = key)) with
  | none => (none, c)
  | some p =>
      if now > p.2.expires_at then
        (none, ⟨c.entries.filter (fun q => !decide (q.1 = key))⟩)
      else
        (some p.2.value, c)

/-- set: bind key to value with expiry now + ttl (overwrites). -/
def SimpleCache.set {K V : Type} [DecidableEq K]
    (c : SimpleCache K V) (now : ℚ) (key : K) (value : V) (ttl_seconds : ℚ) :
    SimpleCache K V :=
  ⟨(key, ⟨value, now + ttl_seconds, now⟩) :: c.entries.filter (fun q => !decide (q.1 = key))⟩

/-- SEARCH_TTL = 5 * 60 seconds. -/
def SEARCH_TTL : ℚ := 5 * 60

/-! ### Data model (final-project/app/models.py) -/

/-- StoreType enum: flagship/regular/outlet/express. -/
inductive StoreType
  | flagship
  | regular
  | outlet
  | express
deriving DecidableEq, Repr

/-- The string value of a StoreType member (class StoreType(str, Enum)). -/
def StoreType.value : StoreType → String
  | .flagship => "flagship"
  | .regular => "regular"
  | .outlet => "outlet"
  | .express => "express"

/-- StoreStatus enum. -/
inductive StoreStatus
  | active
  | inactive
  | temporarily_closed
deriving DecidableEq, Repr

/-- UserStatus enum. -/
inductive UserStatus
  | active
  | inactive
deriving DecidableEq, Repr

/-- A stores-table row.  store_type is kept as the stored string (the SQL
enum's value) because bulk import writes lowercased CSV strings into it;
latitude/longitude are Options because their SQL comparisons are NULL-aware.
The services live in the store_services association table, modelled
separately as (store_id, service_name) pairs. -/
structure Store where
  store_id : String
  name : String
  store_type : String
  status : StoreStatus
  latitude : Option ℚ
  longitude : Option ℚ
  address_street : String
  address_city : String
  address_state : String
  address_postal_code : String
  address_country : String
  phone : Option String
  hours_mon : String
  hours_tue : String
  hours_wed : String
  hours_thu : String
  hours_fri : String
  hours_sat : String
  hours_sun : String
deriving DecidableEq, Repr

/-- The hours dict built by search.py for is_store_open_now (all seven keys
present, Monday = 0). -/
def Store.hoursDict (s : Store) : Fin 7 → Option String :=
  fun d =>
    some (match d.val with
      | 0 => s.hours_mon
      | 1 => s.hours_tue
      | 2 => s.hours_wed
      | 3 => s.hours_thu
      | 4 => s.hours_fri
      | 5 => s.hours_sat
      | _ => s.hours_sun)

/-- Rows of the store_services association table for one store
(select-where store_id = sid, in table order). -/
def storeServices (assoc : List (String × String)) (sid : String) : List String :=
  (assoc.filter (fun p => decide (p.1 = sid))).map (fun p => p.2)

/-! ### Search request schema (project/app/schemas.py, StoreSearchRequest) -/

structure StoreSearchRequest where
  address : Option String := none
  postal_code : Option String := none
  latitude : Option ℚ := none
  longitude : Option ℚ := none
  radius_miles : ℚ := 10
  services : Option (List String) := none
  store_types : Option (List StoreType) := none
  open_now : Option Bool := none
deriving DecidableEq

/-- Pydantic validation of a search request: the Field range constraints
(ge/le on latitude, longitude, radius_miles) plus validate_lat_lon_pair,
which requires latitude and longitude to be None together or not-None
together, and then checks any([address, postal_code, latitude]) - a Python
truthiness test, so latitude = 0.0 counts as missing there. -/
def validateStoreSearchRequest (r : StoreSearchRequest) : Bool :=
  (match r.latitude with
   | none => true
   | some v => decide (-90 ≤ v ∧ v ≤ 90)) &&
  (match r.longitude with
   | none => true
   | some v => decide (-180 ≤ v ∧ v ≤ 180)) &&
  decide (0 ≤ r.radius_miles ∧ r.radius_miles ≤ 100) &&
  !((r.latitude.isSome && !r.longitude.isSome) || (r.longitude.isSome && !r.latitude.isSome)) &&
  (truthyS r.address || truthyS r.postal_code || truthyF r.latitude)

/-! ### Search endpoint (project/app/routers/search.py, search_stores) -/

/-- Result of the geocoding helpers (geocode_address / geocode_postal_code),
which are cached wrappers around the external provider; the search claims
treat them as opaque collaborators. -/
structure GeocodeResult where
  latitude : ℚ
  longitude : ℚ
  formatted_address : Option String
deriving DecidableEq

/-- search_location_info: the three shapes of the dict built in Step 1. -/
inductive SearchLocation
  | coordinates (latitude longitude : ℚ)
  | postal (postal_code : String) (latitude longitude : ℚ) (formatted_address : Option String)
  | addr (address : String) (latitude longitude : ℚ) (formatted_address : Option String)
deriving DecidableEq

/-- The latitude recorded in search_location_info. -/
def SearchLocation.lat : SearchLocation → ℚ
  | .coordinates a _ => a
  | .postal _ a _ _ => a
  | .addr _ a _ _ => a

/-- The longitude recorded in search_location_info. -/
def SearchLocation.lon : SearchLocation → ℚ
  | .coordinates _ b => b
  | .postal _ _ b _ => b
  | .addr _ _ b _ => b

/-- One element of the results list: the store row dict (with its services
list), the output-rounded distance, and the open flag. -/
structure SearchResultEntry where
  store : Store
  services : List String
  distance_miles : ℚ
  is_open_now : Bool
deriving DecidableEq

/-- filters_applied in the response. -/
structure FiltersApplied where
  radius_miles : ℚ
  services : List String
  store_types : List String
  open_now : Option Bool
deriving DecidableEq

structure StoreSearchResponse where
  results : List SearchResultEntry
  search_location : SearchLocation
  filters_applied : FiltersApplied
  total_results : ℕ
deriving DecidableEq

/-- An HTTPException raised by a route handler. -/
structure HttpError where
  status_code : ℕ
  detail : String
deriving DecidableEq

/-- External collaborators of the search endpoint: the geocoding helpers,
cos(radians .)) used by the bounding box over the rationals, and the geopy
geodesic distance in miles. -/
structure GeoEnv where
  geocode_postal_code : String → Option GeocodeResult
  geocode_address : String → Option GeocodeResult
  cosd : ℚ → ℚ
  dist : ℚ → ℚ → ℚ → ℚ → ℚ

/-- The evaluation instant: datetime.utcnow() as a rational (cache expiry)
and the local weekday/time-of-day (is_store_open_now). -/
structure Clock where
  utc : ℚ
  weekday : Fin 7
  tod : ℕ

/-- Rational-valued bounding box (the pipeline-side twin of
calculate_bounding_box, with the cosine collaborator abstracted). -/
structure BBoxQ where
  min_lat : ℚ
  max_lat : ℚ
  min_lon : ℚ
  max_lon : ℚ
deriving DecidableEq

/-- calculate_bounding_box as invoked by search_stores, over the rationals;
cosd stands for fun x => cos(radians(x)). -/
def calculate_bounding_boxQ (cosd : ℚ → ℚ) (latitude longitude radius_miles : ℚ) : BBoxQ :=
  let latitude_delta := radius_miles / 69
  let longitude_delta := radius_miles / (69 * cosd latitude)
  ⟨latitude - latitude_delta, latitude + latitude_delta,
   longitude - longitude_delta, longitude + longitude_delta⟩

/-- Step 1 of search_stores: resolve the origin.  The branch order and the
truthiness tests are the source's: the coordinate branch fires only when
both floats are truthy (nonzero), then postal code, then address, else the
400 "Must provide either ..." error. -/
def resolveOrigin (env : GeoEnv) (r : StoreSearchRequest) :
    Except HttpError (ℚ × ℚ × SearchLocation) :=
  if truthyF r.latitude && truthyF r.longitude then
    .ok (r.latitude.getD 0, r.longitude.getD 0,
         .coordinates (r.latitude.getD 0) (r.longitude.getD 0))
  else if truthyS r.postal_code then
    match env.geocode_postal_code (r.postal_code.getD "") with
    | none => .error ⟨400, "Could not geocode postal code: " ++ r.postal_code.getD ""⟩
    | some g =>
        .ok (g.latitude, g.longitude,
             .postal (r.postal_code.getD "") g.latitude g.longitude g.formatted_address)
  else if truthyS r.address then
    match env.geocode_address (r.address.getD "") with
    | none => .error ⟨400, "Could not geocode address: " ++ r.address.getD ""⟩
    | some g =>
        .ok (g.latitude, g.longitude,
             .addr (r.address.getD "") g.latitude g.longitude g.formatted_address)
  else
    .error ⟨400, "Must provide either address, postal_code, or coordinates (latitude & longitude)"⟩

/-- SQL BETWEEN on a nullable column: NULL compares to nothing. -/
def sqlBetween (v : Option ℚ) (lo hi : ℚ) : Bool :=
  match v with
  | none => false
  | some x => decide (lo ≤ x ∧ x ≤ hi)

/-- Steps 2-3: the bounding-box/status query, plus the store-type filter
that is added only when store_types is truthy (a non-empty list). -/
def searchCandidates (env : GeoEnv) (r : StoreSearchRequest)
    (search_lat search_lon : ℚ) (db : List Store) : List Store :=
  let bbox := calculate_bounding_boxQ env.cosd search_lat search_lon r.radius_miles
  (db.filter (fun s =>
      sqlBetween s.latitude bbox.min_lat bbox.max_lat &&
      sqlBetween s.longitude bbox.min_lon bbox.max_lon &&
      decide (s.status = StoreStatus.active))).filter
    (fun s =>
      if truthyL r.store_types then
        decide (s.store_type ∈ (r.store_types.getD []).map StoreType.value)
      else true)

/-- Step 4: the per-candidate loop.  Exact distance, drop when it exceeds
the radius, services AND-filter (only when the services list is truthy),
open-now evaluation and filter (only when open_now is truthy); survivors
carry the 2-decimal rounded distance. -/
def buildResults (env : GeoEnv) (clock : Clock) (r : StoreSearchRequest)
    (assoc : List (String × String)) (search_lat search_lon : ℚ)
    (stores : List Store) : List SearchResultEntry :=
  stores.filterMap (fun s =>
    let distance := env.dist search_lat search_lon (s.latitude.getD 0) (s.longitude.getD 0)
    if decide (distance > r.radius_miles) then none
    else
      let services_list := storeServices assoc s.store_id
      if truthyL r.services &&
         !((r.services.getD []).all (fun x => decide (x ∈ services_list))) then none
      else
        let is_open := is_store_open_now s.hoursDict clock.weekday clock.tod
        if truthyB r.open_now && !is_open then none
        else some ⟨s, services_list, pyRound2 distance, is_open⟩)

/-- Stable insertion of a result into a distance-sorted list (Python's
list.sort is stable; the key is the rounded distance). -/
def insertByDist (x : SearchResultEntry) : List SearchResultEntry → List SearchResultEntry
  | [] => [x]
  | y :: ys =>
      if decide (y.distance_miles ≤ x.distance_miles) then y :: insertByDist x ys
      else x :: y :: ys

/-- Step 5: stable sort ascending by rounded distance. -/
def sortResults : List SearchResultEntry → List SearchResultEntry
  | [] => []
  | x :: xs => insertByDist x (sortResults xs)

/-- Steps 2-6 of search_stores: everything after origin resolution and
outside the cache. -/
def searchCompute (env : GeoEnv) (clock : Clock) (r : StoreSearchRequest)
    (db : List Store) (assoc : List (String × String))
    (search_lat search_lon : ℚ) (loc : SearchLocation) : StoreSearchResponse :=
  let stores := searchCandidates env r search_lat search_lon db
  let results := sortResults (buildResults env clock r assoc search_lat search_lon stores)
  { results := results
    search_location := loc
    filters_applied :=
      { radius_miles := r.radius_miles
        services := if truthyL r.services then r.services.getD [] else []
        store_types :=
          if truthyL r.store_types then (r.store_types.getD []).map StoreType.value else []
        open_now := r.open_now }
    total_results := results.length }

/-- sorted(.) on strings (Python sorts by code point; Mathlib's linear order
on String is the same lexicographic order). -/
def sortStrings (l : List String) : List String :=
  List.insertionSort (fun a b => a ≤ b) l

/-- The cache key f-string, modelled as the tuple of its fields: the two
"%.4f"-formatted coordinates, the radius, and - each present only when the
corresponding filter list is truthy - the sorted services and the sorted
store-type value strings. -/
structure SearchCacheKey where
  lat4 : ℤ
  lon4 : ℤ
  radius : ℚ
  services : Option (List String)
  types : Option (List String)
deriving DecidableEq

/-- Build the cache key of a request (lines 48-52 and 202-206 of search.py
construct the identical string twice). -/
def searchCacheKey (r : StoreSearchRequest) : SearchCacheKey :=
  { lat4 := fmt4 (r.latitude.getD 0)
    lon4 := fmt4 (r.longitude.getD 0)
    radius := r.radius_miles
    services := if truthyL r.services then some (sortStrings (r.services.getD [])) else none
    types :=
      if truthyL r.store_types then
        some (sortStrings ((r.store_types.getD []).map StoreType.value))
      else none }

/-- The guard on both the cache read (line 47) and the cache write
(line 201): latitude truthy and longitude truthy and open_now not truthy. -/
def cacheableRequest (r : StoreSearchRequest) : Bool :=
  truthyF r.latitude && truthyF r.longitude && !truthyB r.open_now

/-- The cache-free part of the endpoint: origin resolution then compute. -/
def searchFresh (env : GeoEnv) (clock : Clock) (db : List Store)
    (assoc : List (String × String)) (r : StoreSearchRequest) :
    Except HttpError StoreSearchResponse :=
  match resolveOrigin env r with
  | .error e => .error e
  | .ok (la, lo, loc) => .ok (searchCompute env clock r db assoc la lo loc)

/-- search_stores, the whole route handler: cache lookup (for cacheable
requests only), then resolution + computation, then the cache write (again
for cacheable requests only).  Returns the response or error together with
the cache after the call. -/
def search_stores (env : GeoEnv) (clock : Clock) (db : List Store)
    (assoc : List (String × String))
    (cache : SimpleCache SearchCacheKey StoreSearchResponse) (r : StoreSearchRequest) :
    Except HttpError StoreSearchResponse × SimpleCache SearchCacheKey StoreSearchResponse :=
  if cacheableRequest r then
    let key := searchCacheKey r
    let hit := cache.get clock.utc key
    match hit.1 with
    | some v => (.ok v, hit.2)
    | none =>
        match resolveOrigin env r with
        | .error e => (.error e, hit.2)
        | .ok (la, lo, loc) =>
            let response := searchCompute env clock r db assoc la lo loc
            (.ok response, hit.2.set clock.utc key response SEARCH_TTL)
  else
    match resolveOrigin env r with
    | .error e => (.error e, cache)
    | .ok (la, lo, loc) => (.ok (searchCompute env clock r db assoc la lo loc), cache)

/-- POST /api/stores/search including the pydantic layer: an invalid body is
rejected with a 422 before the handler runs (the cache untouched). -/
def postStoresSearch (env : GeoEnv) (clock : Clock) (db : List Store)
    (assoc : List (String × String))
    (cache : SimpleCache SearchCacheKey StoreSearchResponse) (r : StoreSearchRequest) :
    Except HttpError StoreSearchResponse × SimpleCache SearchCacheKey StoreSearchResponse :=
  if validateStoreSearchRequest r then search_stores env clock db assoc cache r
  else (.error ⟨422, "Validation error"⟩, cache)

/-! ### Authentication (project/app/routers/auth.py)

The password hasher and the JWT helpers (app/utils/auth.py, app/utils/jwt.py)
are not in the snapshot; they are passed in as opaque collaborator functions
(verify_password, create_access_token, create_refresh_token, decode_token,
hash_token), which is all the route logic depends on. -/

structure UserRec where
  id : ℕ
  email : String
  hashed_password : String
  full_name : Option String
  status : UserStatus
  role_name : String
deriving DecidableEq

structure RefreshTokenRec where
  token_hash : String
  user_id : ℕ
  expires_at : ℚ
  revoked : Bool
deriving DecidableEq

structure LoginRequest where
  email : String
  password : String
deriving DecidableEq

structure Token where
  access_token : String
  refresh_token : String
  token_type : String
deriving DecidableEq

/-- Claims put into an access token. -/
structure TokenData where
  user_id : ℕ
  email : String
  role : String
deriving DecidableEq

/-- Payload of a decoded token as used by the refresh route: the type marker
and the user_id claim (absent on malformed payloads). -/
structure TokenPayload where
  type : String
  user_id : Option ℕ
deriving DecidableEq

/-- POST /api/auth/login.  Lookup by email, verify password, check status,
then issue both tokens and append the refresh-token record (expiry now + 7
days, revoked = False).  The three failure branches are the source's, with
their exact status codes and detail strings. -/
def login (verify_password : String → String → Bool)
    (create_access_token : TokenData → String) (create_refresh_token : ℕ → String)
    (hash_token : String → String) (now : ℚ)
    (users : List UserRec) (tokens : List RefreshTokenRec) (req : LoginRequest) :
    Except HttpError Token × List RefreshTokenRec :=
  match users.find? (fun u => decide (u.email = req.email)) with
  | none => (.error ⟨401, "Incorrect email or password"⟩, tokens)
  | some user =>
      if !verify_password req.password user.hashed_password then
        (.error ⟨401, "Incorrect email or password"⟩, tokens)
      else if user.status ≠ UserStatus.active then
        (.error ⟨401, "User account is inactive"⟩, tokens)
      else
        let access_token := create_access_token ⟨user.id, user.email, user.role_name⟩
        let refresh_token := create_refresh_token user.id
        (.ok ⟨access_token, refresh_token, "bearer"⟩,
         tokens ++ [⟨hash_token refresh_token, user.id, now + 7 * 24 * 60 * 60, false⟩])

/-- POST /api/auth/refresh.  Decode and check the type marker; look up a
non-revoked record by token hash (a revoked record is invisible to this
query); reject when expired; look up the user and require it active; then
issue a fresh access token and echo the same refresh token (no rotation).
The route writes nothing to the token table. -/
def refresh_access_token (decode_token : String → Option TokenPayload)
    (hash_token : String → String) (create_access_token : TokenData → String)
    (now : ℚ) (users : List UserRec) (tokens : List RefreshTokenRec)
    (refresh_token : String) : Except HttpError Token :=
  match decode_token refresh_token with
  | none => .error ⟨401, "Invalid refresh token"⟩
  | some payload =>
      if payload.type ≠ "refresh" then .error ⟨401, "Invalid refresh token"⟩
      else
        match tokens.find? (fun t =>
            decide (t.token_hash = hash_token refresh_token) && !t.revoked) with
        | none => .error ⟨401, "Refresh token not found or has been revoked"⟩
        | some db_token =>
            if db_token.expires_at < now then
              .error ⟨401, "Refresh token has expired"⟩
            else
              match payload.user_id.bind
                  (fun uid => users.find? (fun u => decide (u.id = uid))) with
              | none => .error ⟨401, "User not found or inactive"⟩
              | some user =>
                  if user.status ≠ UserStatus.active then
                    .error ⟨401, "User not found or inactive"⟩
                  else
                    .ok ⟨create_access_token ⟨user.id, user.email, user.role_name⟩,
                         refresh_token, "bearer"⟩

structure LogoutResult where
  message : String
deriving DecidableEq

/-- Mark the first record matching the hash and owner as revoked (the body
of the if db_token branch); everything else is untouched. -/
def revokeFirst (h : String) (uid : ℕ) : List RefreshTokenRec → List RefreshTokenRec
  | [] => []
  | t :: ts =>
      if t.token_hash = h ∧ t.user_id = uid then { t with revoked := true } :: ts
      else t :: revokeFirst h uid ts

/-- POST /api/auth/logout (authenticated; current_user_id is the identity
resolved by get_current_user).  Finds the caller-owned record for the hash
and sets revoked = True when present; in every case - found, already
revoked, or missing - it returns the same 200 success message. -/
def logout (hash_token : String → String) (current_user_id : ℕ)
    (tokens : List RefreshTokenRec) (refresh_token : String) :
    LogoutResult × List RefreshTokenRec :=
  (⟨"Successfully logged out"⟩, revokeFirst (hash_token refresh_token) current_user_id tokens)

/-! ### Store CRUD (project/app/routers/stores.py)

The authenticated listing and point-lookup endpoints, and the three
mutating endpoints together with their cache effects.  The permission
dependency layer is outside these handlers and not modelled. -/

/-- Update the first element satisfying p (the mutated ORM row; store_id is
the primary key so at most one row matches). -/
def updateFirst {α : Type} (p : α → Bool) (f : α → α) : List α → List α
  | [] => []
  | x :: xs => if p x then f x :: xs else x :: updateFirst p f xs

/-- GET /api/stores: offset/limit pagination over the unfiltered store
table, each row paired with its services.  No status filter of any kind. -/
def get_all_stores (db : List Store) (assoc : List (String × String))
    (skip limit : ℕ) : List (Store × List String) :=
  ((db.drop skip).take limit).map (fun s => (s, storeServices assoc s.store_id))

/-- GET /api/stores/(store_id): first row with the id, 404 when absent; the
row's status is never consulted. -/
def get_store (db : List Store) (assoc : List (String × String)) (store_id : String) :
    Except HttpError (Store × List String) :=
  match db.find? (fun s => decide (s.store_id = store_id)) with
  | none => .error ⟨404, "Store not found"⟩
  | some s => .ok (s, storeServices assoc s.store_id)

/-- Body of POST /api/stores (pydantic-validated, so store_type is a real
enum member and status defaults to active). -/
structure StoreCreate where
  store_id : String
  name : String
  store_type : StoreType
  status : StoreStatus := .active
  latitude : Option ℚ := none
  longitude : Option ℚ := none
  address_street : String
  address_city : String
  address_state : String
  address_postal_code : String
  address_country : String := "USA"
  phone : Option String := none
  services : List String := []
  hours_mon : String := "closed"
  hours_tue : String := "closed"
  hours_wed : String := "closed"
  hours_thu : String := "closed"
  hours_fri : String := "closed"
  hours_sat : String := "closed"
  hours_sun : String := "closed"
deriving DecidableEq

/-- Shared mutable state of the store endpoints: the two tables and the
process-wide search cache. -/
structure StoresState where
  db : List Store
  assoc : List (String × String)
  cache : SimpleCache SearchCacheKey StoreSearchResponse
deriving DecidableEq

/-- POST /api/stores: duplicate-id check (400, nothing changed), geocode
fallback when a coordinate is missing and the street/city/state are all
truthy, then insert, clear the whole search cache, and attach the services.
(The status default branch of the source never fires: a StoreStatus str-enum
member is always truthy.) -/
def create_store (geocode_address : String → Option GeocodeResult)
    (st : StoresState) (store_data : StoreCreate) :
    Except HttpError (Store × List String) × StoresState :=
  if (st.db.find? (fun s => decide (s.store_id = store_data.store_id))).isSome then
    (.error ⟨400, "Store ID already exists"⟩, st)
  else
    let coords : Option ℚ × Option ℚ :=
      if (store_data.latitude.isNone || store_data.longitude.isNone) &&
         truthyS (some store_data.address_street) &&
         truthyS (some store_data.address_city) &&
         truthyS (some store_data.address_state) then
        match geocode_address (store_data.address_street ++ ", " ++
            store_data.address_city ++ ", " ++ store_data.address_state) with
        | some g => (some g.latitude, some g.longitude)
        | none => (store_data.latitude, store_data.longitude)
      else (store_data.latitude, store_data.longitude)
    let new_store : Store :=
      { store_id := store_data.store_id
        name := store_data.name
        store_type := store_data.store_type.value
        status := store_data.status
        latitude := coords.1
        longitude := coords.2
        address_street := store_data.address_street
        address_city := store_data.address_city
        address_state := store_data.address_state
        address_postal_code := store_data.address_postal_code
        address_country := store_data.address_country
        phone := store_data.phone
        hours_mon := store_data.hours_mon
        hours_tue := store_data.hours_tue
        hours_wed := store_data.hours_wed
        hours_thu := store_data.hours_thu
        hours_fri := store_data.hours_fri
        hours_sat := store_data.hours_sat
        hours_sun := store_data.hours_sun }
    (.ok (new_store, store_data.services),
     { db := st.db ++ [new_store]
       assoc := st.assoc ++ store_data.services.map (fun v => (store_data.store_id, v))
       cache := emptyCache _ _ })

/-- Body of PATCH /api/stores/(store_id); none models an unset field
(model_dump(exclude_unset=True)). -/
structure StoreUpdate where
  name : Option String := none
  phone : Option String := none
  services : Option (List String) := none
  status : Option StoreStatus := none
  hours_mon : Option String := none
  hours_tue : Option String := none
  hours_wed : Option String := none
  hours_thu : Option String := none
  hours_fri : Option String := none
  hours_sat : Option String := none
  hours_sun : Option String := none
deriving DecidableEq

/-- Apply the provided fields of a patch to a store row. -/
def applyStoreUpdate (u : StoreUpdate) (s : Store) : Store :=
  { s with
    name := u.name.getD s.name
    phone := match u.phone with | some v => some v | none => s.phone
    status := u.status.getD s.status
    hours_mon := u.hours_mon.getD s.hours_mon
    hours_tue := u.hours_tue.getD s.hours_tue
    hours_wed := u.hours_wed.getD s.hours_wed
    hours_thu := u.hours_thu.getD s.hours_thu
    hours_fri := u.hours_fri.getD s.hours_fri
    hours_sat := u.hours_sat.getD s.hours_sat
    hours_sun := u.hours_sun.getD s.hours_sun }

/-- PATCH /api/stores/(store_id): 404 when absent (nothing changed); when
services are provided the association rows are replaced wholesale; the
remaining provided fields are setattr-ed; the cache is cleared after the
commit and before the response. -/
def update_store (st : StoresState) (store_id : String) (store_data : StoreUpdate) :
    Except HttpError (Store × List String) × StoresState :=
  match st.db.find? (fun s => decide (s.store_id = store_id)) with
  | none => (.error ⟨404, "Store not found"⟩, st)
  | some s =>
      let assoc' :=
        match store_data.services with
        | some svcs =>
            st.assoc.filter (fun p => !decide (p.1 = store_id)) ++
              svcs.map (fun v => (store_id, v))
        | none => st.assoc
      let s' := applyStoreUpdate store_data s
      let services_out :=
        match store_data.services with
        | some svcs => svcs
        | none => storeServices assoc' store_id
      (.ok (s', services_out),
       { db := updateFirst (fun t => decide (t.store_id = store_id))
                 (fun _ => s') st.db
         assoc := assoc'
         cache := emptyCache _ _ })

/-- DELETE /api/stores/(store_id): 404 when absent (nothing changed); soft
delete sets status to inactive, then the cache is cleared. -/
def delete_store (st : StoresState) (store_id : String) :
    Except HttpError Unit × StoresState :=
  match st.db.find? (fun s => decide (s.store_id = store_id)) with
  | none => (.error ⟨404, "Store not found"⟩, st)
  | some _ =>
      (.ok (),
       { db := updateFirst (fun t => decide (t.store_id = store_id))
                 (fun s => { s with status := StoreStatus.inactive }) st.db
         assoc := st.assoc
         cache := emptyCache _ _ })

/-! ### Bulk CSV import (project/app/routers/admin.py, bulk_import_stores)

One parsed DictReader row; the seven required-header fields are plain
strings (present once the header check passed; an empty cell is ""), the
optional columns are Options (none when the column is absent). -/

structure CsvRow where
  store_id : String
  name : String
  store_type : String
  address_street : String := ""
  address_city : String := ""
  address_state : String := ""
  address_postal_code : String := ""
  latitude : Option String := none
  longitude : Option String := none
  phone : Option String := none
  services : Option String := none
  hours_monday : Option String := none
  hours_tuesday : Option String := none
  hours_wednesday : Option String := none
  hours_thursday : Option String := none
  hours_friday : Option String := none
  hours_saturday : Option String := none
  hours_sunday : Option String := none
deriving DecidableEq

/-- One line of the failed_records list. -/
structure StoreImportResult where
  row_number : ℕ
  store_id : String
  status : String
  error : Option String
deriving DecidableEq

structure BulkImportResponse where
  total_rows : ℕ
  created : ℕ
  updated : ℕ
  failed : ℕ
  failed_records : List StoreImportResult
deriving DecidableEq

/-- The hard-coded store_type whitelist of the import route (admin.py line
126) - note pop-up in place of the enum's express. -/
def importValidTypes : List String :=
  ["regular", "flagship", "outlet", "pop-up"]

/-- Outcome of the per-row validation prefix (the chain of continue-guards
before the upsert). -/
inductive RowCheck
  | failure (error : String)
  | okRow (latitude longitude : ℚ) (store_type : String) (services : List String)
deriving DecidableEq

/-- The validation chain of one row, in source order: missing store_id/name;
coordinate resolution (geocode from the combined address when either
coordinate cell is falsy, else float() conversion); the store_type
whitelist on the lowercased cell; then the parsed services list
(pipe-separated, stripped, empties dropped). -/
def rowCheck (geocode_address : String → Option GeocodeResult) (row : CsvRow) : RowCheck :=
  if row.store_id = "" ∨ row.name = "" then
    .failure "Missing store_id or name"
  else
    let coords : Except String (ℚ × ℚ) :=
      if !truthyS row.latitude || !truthyS row.longitude then
        match geocode_address (row.address_street ++ ", " ++ row.address_city ++ ", " ++
            row.address_state ++ " " ++ row.address_postal_code) with
        | some g => .ok (g.latitude, g.longitude)
        | none => .error "Could not geocode address and no coordinates provided"
      else
        match pyFloat (row.latitude.getD ""), pyFloat (row.longitude.getD "") with
        | some la, some lo => .ok (la, lo)
        | _, _ => .error "Invalid latitude or longitude format"
    match coords with
    | .error e => .failure e
    | .ok (la, lo) =>
        let store_type := pyLower row.store_type
        if store_type ∉ importValidTypes then
          .failure "Invalid store_type. Must be one of: regular, flagship, outlet, pop-up"
        else
          .okRow la lo store_type
            (((splitOnChar '|' (row.services.getD "").data).map
                (fun cs => (trimChars cs).asString)).filter (fun v => v ≠ ""))

/-- The field updates applied to an existing store by the upsert (status and
address_country untouched). -/
def csvUpdate (row : CsvRow) (la lo : ℚ) (stype : String) (s : Store) : Store :=
  { s with
    name := row.name
    store_type := stype
    latitude := some la
    longitude := some lo
    address_street := row.address_street
    address_city := row.address_city
    address_state := row.address_state
    address_postal_code := row.address_postal_code
    phone := some (row.phone.getD "")
    hours_mon := row.hours_monday.getD "closed"
    hours_tue := row.hours_tuesday.getD "closed"
    hours_wed := row.hours_wednesday.getD "closed"
    hours_thu := row.hours_thursday.getD "closed"
    hours_fri := row.hours_friday.getD "closed"
    hours_sat := row.hours_saturday.getD "closed"
    hours_sun := row.hours_sunday.getD "closed" }

/-- The fresh active store created by the upsert for an unknown store_id. -/
def csvCreate (row : CsvRow) (la lo : ℚ) (stype : String) : Store :=
  { store_id := row.store_id
    name := row.name
    store_type := stype
    status := StoreStatus.active
    latitude := some la
    longitude := some lo
    address_street := row.address_street
    address_city := row.address_city
    address_state := row.address_state
    address_postal_code := row.address_postal_code
    address_country := "USA"
    phone := some (row.phone.getD "")
    hours_mon := row.hours_monday.getD "closed"
    hours_tue := row.hours_tuesday.getD "closed"
    hours_wed := row.hours_wednesday.getD "closed"
    hours_thu := row.hours_thursday.getD "closed"
    hours_fri := row.hours_friday.getD "closed"
    hours_sat := row.hours_saturday.getD "closed"
    hours_sun := row.hours_sunday.getD "closed" }

/-- Accumulator of the import loop: the flushed table state (visible to the
existence query of later rows) and the counters. -/
structure ImportState where
  stores : List Store
  assoc : List (String × String)
  created : ℕ
  updated : ℕ
  failed_records : List StoreImportResult
deriving DecidableEq

/-- Process one CSV data row: a failed check appends a failure record with
this row number and moves on; otherwise upsert (update when the store_id
exists in the current table, else create), replacing the services rows. -/
def importRow (geocode_address : String → Option GeocodeResult)
    (st : ImportState) (row_num : ℕ) (row : CsvRow) : ImportState :=
  match rowCheck geocode_address row with
  | .failure err =>
      { st with failed_records :=
          st.failed_records ++ [⟨row_num, row.store_id, "failed", some err⟩] }
  | .okRow la lo stype svcs =>
      if (st.stores.find? (fun s => decide (s.store_id = row.store_id))).isSome then
        { st with
          stores := updateFirst (fun s => decide (s.store_id = row.store_id))
                      (csvUpdate row la lo stype) st.stores
          assoc := st.assoc.filter (fun p => !decide (p.1 = row.store_id)) ++
                     svcs.map (fun v => (row.store_id, v))
          updated := st.updated + 1 }
      else
        { st with
          stores := st.stores ++ [csvCreate row la lo stype]
          assoc := st.assoc ++ svcs.map (fun v => (row.store_id, v))
          created := st.created + 1 }

/-- The enumerate(csv_reader, start=2) loop. -/
def importRows (geocode_address : String → Option GeocodeResult)
    (st : ImportState) (row_num : ℕ) : List CsvRow → ImportState
  | [] => st
  | row :: rest => importRows geocode_address (importRow geocode_address st row_num row) (row_num + 1) rest

/-- POST /api/admin/stores/import after the header check: run every row,
then report the counters.  The handler never references the search
cache, so the cache is passed through untouched - that pass-through is
the modelled absence of any invalidation in admin.py. -/
def bulk_import_stores (geocode_address : String → Option GeocodeResult)
    (db : List Store) (assoc : List (String × String))
    (cache : SimpleCache SearchCacheKey StoreSearchResponse) (rows : List CsvRow) :
    BulkImportResponse × ImportState × SimpleCache SearchCacheKey StoreSearchResponse :=
  let st := importRows geocode_address ⟨db, assoc, 0, 0, []⟩ 2 rows
  (⟨st.created + st.updated + st.failed_records.length,
    st.created, st.updated, st.failed_records.length, st.failed_records⟩,
   st, cache)

/-! ## Theorems -/

/-- C4 counterexample: at latitude 90 the longitude-delta denominator
69 * cos(radians(90)) is exactly zero in real arithmetic - the formula is
applied unguarded - and the box returned for (90, 0, 10) does not have
min_lon = -180 and max_lon = 180 as the claim asserts. -/
theorem C4_counterexample :
    69 * Real.cos ((90 : ℝ) * Real.pi / 180) = 0 ∧
    (calculate_bounding_box 90 0 10).min_lon ≠ -180 ∧
    (calculate_bounding_box 90 0 10).max_lon ≠ 180 := by
  have h : (90 : ℝ) * Real.pi / 180 = Real.pi / 2 := by ring
  have hc : Real.cos ((90 : ℝ) * Real.pi / 180) = 0 := by
    rw [h, Real.cos_pi_div_two]
  refine ⟨by rw [hc]; ring, ?_, ?_⟩ <;> simp [calculate_bounding_box, hc]

/-- C4 (amended): for every latitude - the poles included - the function
returns min/max latitude at delta radius/69.0 and min/max longitude at delta
radius/(69.0 * cos(radians(latitude))), with no guard of any kind: at
latitude = +-90 the cosine factor is exactly zero (a division by zero in
exact arithmetic; CPython's float merely makes the quotient astronomically
large), and the result is not the full +-180 longitude span. -/
theorem C4_unguarded_formula :
    (∀ latitude longitude radius_miles : ℝ,
      (calculate_bounding_box latitude longitude radius_miles).min_lat
          = latitude - radius_miles / 69 ∧
      (calculate_bounding_box latitude longitude radius_miles).max_lat
          = latitude + radius_miles / 69 ∧
      (calculate_bounding_box latitude longitude radius_miles).min_lon
          = longitude - radius_miles / (69 * Real.cos (latitude * Real.pi / 180)) ∧
      (calculate_bounding_box latitude longitude radius_miles).max_lon
          = longitude + radius_miles / (69 * Real.cos (latitude * Real.pi / 180))) ∧
    Real.cos ((90 : ℝ) * Real.pi / 180) = 0 ∧
    Real.cos ((-90 : ℝ) * Real.pi / 180) = 0 ∧
    (calculate_bounding_box 90 0 10).min_lon ≠ -180 ∧
    (calculate_bounding_box 90 0 10).max_lon ≠ 180 := by
  have h : (90 : ℝ) * Real.pi / 180 = Real.pi / 2 := by ring
  have hc : Real.cos ((90 : ℝ) * Real.pi / 180) = 0 := by
    rw [h, Real.cos_pi_div_two]
  have hn : (-90 : ℝ) * Real.pi / 180 = -(Real.pi / 2) := by ring
  refine ⟨fun la lo r => ⟨rfl, rfl, rfl, rfl⟩, hc, ?_, ?_, ?_⟩
  · rw [hn, Real.cos_neg, Real.cos_pi_div_two]
  · simp [calculate_bounding_box, hc]
  · simp [calculate_bounding_box, hc]

/-- C9 (confirmed): is_store_open_now returns false when the day's entry is
the literal "closed"; returns false (total, never raising) whenever the
entry fails the HH:MM-HH:MM parse; and when the entry parses to an
open/close pair it returns true exactly when the time of day lies in the
closed interval, inclusive at both boundaries. -/
theorem C9_open_now_spec (hours : Fin 7 → Option String) (d : Fin 7) (tod : ℕ) :
    ((hours d).getD "closed" = "closed" → is_store_open_now hours d tod = false) ∧
    (parseHours ((hours d).getD "closed") = none →
      is_store_open_now hours d tod = false) ∧
    (∀ o c, parseHours ((hours d).getD "closed") = some (o, c) →
      (is_store_open_now hours d tod = true ↔ o ≤ tod ∧ tod ≤ c)) := by
  refine ⟨fun h => ?_, fun h => ?_, fun o c h => ?_⟩
  · simp [is_store_open_now, h]
  · by_cases hc : (hours d).getD "closed" = "closed"
    · simp [is_store_open_now, hc]
    · simp [is_store_open_now, hc, h]
  · have hc : ¬((hours d).getD "closed" = "closed") := by
      intro hcl
      rw [hcl] at h
      exact Option.noConfusion ((by rfl : parseHours "closed" = none) ▸ h)
    simp [is_store_open_now, hc, h]

/-- C9 witness: the canonical store hours "09:00-21:00" parse to the
expected pair, and the store counts as open at the closing boundary
21:00 exactly. -/
theorem C9_witness :
    parseHours "09:00-21:00" = some (timeHM 9 0, timeHM 21 0) ∧
    is_store_open_now (fun _ => some "09:00-21:00") 0 (timeHM 21 0) = true := by
  have hp : parseHours "09:00-21:00" = some (timeHM 9 0, timeHM 21 0) := by decide
  exact ⟨hp,
    ((C9_open_now_spec (fun _ => some "09:00-21:00") 0 (timeHM 21 0)).2.2
        (timeHM 9 0) (timeHM 21 0) hp).mpr (by decide)⟩

/-- C5 (amended): every login failure returns status 401 and leaves the
token table untouched; an unknown email and a wrong password share the one
generic message "Incorrect email or password", but correct credentials on an
inactive account return the distinct message "User account is inactive". -/
theorem C5_login_failures (verify : String → String → Bool)
    (ca : TokenData → String) (cr : ℕ → String) (ht : String → String)
    (now : ℚ) (users : List UserRec) (tokens : List RefreshTokenRec)
    (req : LoginRequest) :
    (∀ e tokens2, login verify ca cr ht now users tokens req = (.error e, tokens2) →
        e.status_code = 401 ∧ tokens2 = tokens) ∧
    (users.find? (fun u => decide (u.email = req.email)) = none →
        (login verify ca cr ht now users tokens req).1
          = .error ⟨401, "Incorrect email or password"⟩) ∧
    (∀ u, users.find? (fun u => decide (u.email = req.email)) = some u →
        verify req.password u.hashed_password = false →
        (login verify ca cr ht now users tokens req).1
          = .error ⟨401, "Incorrect email or password"⟩) ∧
    (∀ u, users.find? (fun u => decide (u.email = req.email)) = some u →
        verify req.password u.hashed_password = true →
        u.status ≠ UserStatus.active →
        (login verify ca cr ht now users tokens req).1
          = .error ⟨401, "User account is inactive"⟩) := by
  cases hfind : users.find? (fun u => decide (u.email = req.email)) with
  | none =>
      have hl : login verify ca cr ht now users tokens req
          = (.error ⟨401, "Incorrect email or password"⟩, tokens) := by
        simp [login, hfind]
      refine ⟨?_, fun _ => by rw [hl], fun u hu => Option.noConfusion hu,
        fun u hu => Option.noConfusion hu⟩
      intro e tokens2 h
      rw [hl, Prod.mk.injEq] at h
      obtain ⟨h1, h2⟩ := h
      have h3 := Except.error.inj h1
      subst h3
      exact ⟨rfl, h2.symm⟩
  | some u =>
      cases hv : verify req.password u.hashed_password with
      | false =>
          have hl : login verify ca cr ht now users tokens req
              = (.error ⟨401, "Incorrect email or password"⟩, tokens) := by
            simp [login, hfind, hv]
          refine ⟨?_, fun hn => Option.noConfusion hn, fun v hv2 _ => by rw [hl], ?_⟩
          · intro e tokens2 h
            rw [hl, Prod.mk.injEq] at h
            obtain ⟨h1, h2⟩ := h
            have h3 := Except.error.inj h1
            subst h3
            exact ⟨rfl, h2.symm⟩
          · intro v hv2 hvt
            obtain rfl := Option.some.inj hv2
            rw [hv] at hvt
            exact Bool.noConfusion hvt
      | true =>
          by_cases hs : u.status = UserStatus.active
          · have hl : login verify ca cr ht now users tokens req
                = (.ok ⟨ca ⟨u.id, u.email, u.role_name⟩, cr u.id, "bearer"⟩,
                   tokens ++ [⟨ht (cr u.id), u.id, now + 7 * 24 * 60 * 60, false⟩]) := by
              simp [login, hfind, hv, hs]
            refine ⟨?_, fun hn => Option.noConfusion hn, ?_, ?_⟩
            · intro e tokens2 h
              rw [hl, Prod.mk.injEq] at h
              exact Except.noConfusion h.1
            · intro v hv2 hvf
              obtain rfl := Option.some.inj hv2
              rw [hv] at hvf
              exact Bool.noConfusion hvf
            · intro v hv2 _ hst
              obtain rfl := Option.some.inj hv2
              exact absurd hs hst
          · have hl : login verify ca cr ht now users tokens req
                = (.error ⟨401, "User account is inactive"⟩, tokens) := by
              simp [login, hfind, hv, hs]
            refine ⟨?_, fun hn => Option.noConfusion hn, ?_,
              fun v hv2 _ _ => by rw [hl]⟩
            · intro e tokens2 h
              rw [hl, Prod.mk.injEq] at h
              obtain ⟨h1, h2⟩ := h
              have h3 := Except.error.inj h1
              subst h3
              exact ⟨rfl, h2.symm⟩
            · intro v hv2 hvf
              obtain rfl := Option.some.inj hv2
              rw [hv] at hvf
              exact Bool.noConfusion hvf

/-- C5 counterexample: with one inactive user whose stored hash verifies,
login with the correct credentials answers 401 "User account is inactive"
while a wrong password answers 401 "Incorrect email or password" - two
different messages, so the claimed uniform message is refuted (the status
code is uniformly 401). -/
theorem C5_counterexample :
    (login (fun p h => p == h) (fun _ => "acc") (fun _ => "ref") (fun s => s) 0
        [⟨1, "a@b.c", "pw", none, UserStatus.inactive, "viewer"⟩] [] ⟨"a@b.c", "pw"⟩).1
      = .error ⟨401, "User account is inactive"⟩ ∧
    (login (fun p h => p == h) (fun _ => "acc") (fun _ => "ref") (fun s => s) 0
        [⟨1, "a@b.c", "pw", none, UserStatus.inactive, "viewer"⟩] [] ⟨"a@b.c", "xx"⟩).1
      = .error ⟨401, "Incorrect email or password"⟩ ∧
    ("User account is inactive" : String) ≠ "Incorrect email or password" :=
  ⟨by with_unfolding_all rfl, by with_unfolding_all rfl, by decide⟩

/-- C5 witness: the three failure branches of the amended theorem at
concrete inputs. -/
theorem C5_witness :
    (login (fun p h => p == h) (fun _ => "acc") (fun _ => "ref") (fun s => s) 0
        [] [] ⟨"z@b.c", "pw"⟩).1 = .error ⟨401, "Incorrect email or password"⟩ ∧
    (login (fun p h => p == h) (fun _ => "acc") (fun _ => "ref") (fun s => s) 0
        [⟨1, "a@b.c", "pw", none, UserStatus.active, "viewer"⟩] [] ⟨"a@b.c", "xx"⟩).1
      = .error ⟨401, "Incorrect email or password"⟩ ∧
    (login (fun p h => p == h) (fun _ => "acc") (fun _ => "ref") (fun s => s) 0
        [⟨1, "a@b.c", "pw", none, UserStatus.inactive, "viewer"⟩] [] ⟨"a@b.c", "pw"⟩).1
      = .error ⟨401, "User account is inactive"⟩ :=
  ⟨(C5_login_failures (fun p h => p == h) (fun _ => "acc") (fun _ => "ref") (fun s => s) 0
      [] [] ⟨"z@b.c", "pw"⟩).2.1 rfl,
   (C5_login_failures (fun p h => p == h) (fun _ => "acc") (fun _ => "ref") (fun s => s) 0
      [⟨1, "a@b.c", "pw", none, UserStatus.active, "viewer"⟩] [] ⟨"a@b.c", "xx"⟩).2.2.1
      ⟨1, "a@b.c", "pw", none, UserStatus.active, "viewer"⟩ rfl (by decide),
   (C5_login_failures (fun p h => p == h) (fun _ => "acc") (fun _ => "ref") (fun s => s) 0
      [⟨1, "a@b.c", "pw", none, UserStatus.inactive, "viewer"⟩] [] ⟨"a@b.c", "pw"⟩).2.2.2
      ⟨1, "a@b.c", "pw", none, UserStatus.inactive, "viewer"⟩ rfl (by decide) (by decide)⟩

/-- Every record of a revokeFirst output is an input record, possibly with
its revoked flag set to true - never the other way around. -/
theorem revokeFirst_mem {h : String} {uid : ℕ} {l : List RefreshTokenRec}
    {t : RefreshTokenRec} (ht : t ∈ revokeFirst h uid l) :
    t ∈ l ∨ ∃ t0 ∈ l, t = { t0 with revoked := true } := by
  induction l with
  | nil => simp [revokeFirst] at ht
  | cons x xs ih =>
      rw [revokeFirst] at ht
      by_cases hc : x.token_hash = h ∧ x.user_id = uid
      · rw [if_pos hc] at ht
        rcases List.mem_cons.mp ht with h1 | h2
        · exact Or.inr ⟨x, List.mem_cons_self .., h1⟩
        · exact Or.inl (List.mem_cons_of_mem _ h2)
      · rw [if_neg hc] at ht
        rcases List.mem_cons.mp ht with h1 | h2
        · exact Or.inl (h1 ▸ List.mem_cons_self ..)
        · rcases ih h2 with h3 | ⟨t0, ht0, he⟩
          · exact Or.inl (List.mem_cons_of_mem _ h3)
          · exact Or.inr ⟨t0, List.mem_cons_of_mem _ ht0, he⟩

/-- C6 (amended): a refresh-token record that is revoked or past its expiry
is terminal for the refresh route - whenever every record carrying the
token's hash is revoked or expired, refresh fails with a 401 - but the
logout route never fails: it returns the same 200 success message for
revoked, expired and unknown tokens alike (an idempotent no-op).  No
operation moves a record back towards active: logout only ever sets revoked
to true, and login only appends fresh records. -/
theorem C6_token_terminality (decode : String → Option TokenPayload)
    (ht : String → String) (ca : TokenData → String) (now : ℚ)
    (users : List UserRec) (tokens : List RefreshTokenRec) (rt : String) :
    ((∀ t ∈ tokens, t.token_hash = ht rt → (t.revoked = true ∨ t.expires_at < now)) →
      ∃ e, refresh_access_token decode ht ca now users tokens rt = .error e ∧
        e.status_code = 401) ∧
    (∀ uid, (logout ht uid tokens rt).1 = ⟨"Successfully logged out"⟩) ∧
    (∀ uid t, t ∈ (logout ht uid tokens rt).2 →
      t ∈ tokens ∨ ∃ t0 ∈ tokens, t = { t0 with revoked := true }) ∧
    (∀ verify cr req, ∃ rest, (login verify ca cr ht now users tokens req).2
      = tokens ++ rest) := by
  refine ⟨?_, fun _ => rfl, fun uid t htm => revokeFirst_mem htm, ?_⟩
  · intro hterm
    cases hdec : decode rt with
    | none => exact ⟨⟨401, "Invalid refresh token"⟩, by simp [refresh_access_token, hdec], rfl⟩
    | some payload =>
        by_cases hty : payload.type = "refresh"
        · cases hfind : tokens.find? (fun t =>
              decide (t.token_hash = ht rt) && !t.revoked) with
          | none =>
              exact ⟨⟨401, "Refresh token not found or has been revoked"⟩,
                by simp [refresh_access_token, hdec, hty, hfind], rfl⟩
          | some db_token =>
              have hmem := List.mem_of_find?_eq_some hfind
              have hpred := List.find?_some hfind
              rw [Bool.and_eq_true, decide_eq_true_eq, Bool.not_eq_eq_eq_not,
                Bool.not_true] at hpred
              have hexp : db_token.expires_at < now := by
                rcases hterm db_token hmem hpred.1 with hrev | hexp
                · rw [hpred.2] at hrev
                  exact Bool.noConfusion hrev
                · exact hexp
              exact ⟨⟨401, "Refresh token has expired"⟩,
                by simp [refresh_access_token, hdec, hty, hfind, hexp], rfl⟩
        · exact ⟨⟨401, "Invalid refresh token"⟩,
            by simp [refresh_access_token, hdec, hty], rfl⟩
  · intro verify cr req
    cases hfind : users.find? (fun u => decide (u.email = req.email)) with
    | none => exact ⟨[], by simp [login, hfind]⟩
    | some u =>
        cases hv : verify req.password u.hashed_password with
        | false => exact ⟨[], by simp [login, hfind, hv]⟩
        | true =>
            by_cases hs : u.status = UserStatus.active
            · exact ⟨[⟨ht (cr u.id), u.id, now + 7 * 24 * 60 * 60, false⟩],
                by simp [login, hfind, hv, hs]⟩
            · exact ⟨[], by simp [login, hfind, hv, hs]⟩

/-- C6 counterexample: logout with an already-revoked token succeeds - the
route returns the 200 message "Successfully logged out" and leaves the
table as it was - whereas the claim asserts that a revoked token always
fails subsequent logout calls. -/
theorem C6_counterexample :
    (logout (fun s => s) 1 [⟨"h1", 1, 100, true⟩] "h1").1
      = ⟨"Successfully logged out"⟩ ∧
    (logout (fun s => s) 1 [⟨"h1", 1, 100, true⟩] "h1").2 = [⟨"h1", 1, 100, true⟩] :=
  ⟨rfl, by with_unfolding_all rfl⟩

/-- C6 witness: refresh with the hash matching only a revoked record fails
with a 401. -/
theorem C6_witness :
    ∃ e, refresh_access_token (fun _ => some ⟨"refresh", some 1⟩) (fun s => s)
        (fun _ => "acc") 200 [] [⟨"h1", 1, 100, true⟩] "h1" = .error e ∧
      e.status_code = 401 :=
  (C6_token_terminality (fun _ => some ⟨"refresh", some 1⟩) (fun s => s)
      (fun _ => "acc") 200 [] [⟨"h1", 1, 100, true⟩] "h1").1
    (by
      intro t htm _
      rw [List.mem_singleton] at htm
      subst htm
      exact Or.inl rfl)

/-- A row passes the whole validation chain (and will upsert). -/
def rowOk (geocode_address : String → Option GeocodeResult) (row : CsvRow) : Bool :=
  match rowCheck geocode_address row with
  | .okRow _ _ _ _ => true
  | .failure _ => false

/-- A valid row bumps created + updated by one and leaves the failure list
alone. -/
theorem importRow_ok {g : String → Option GeocodeResult} {row : CsvRow}
    (hok : rowOk g row = true) (st : ImportState) (n : ℕ) :
    (importRow g st n row).created + (importRow g st n row).updated
        = st.created + st.updated + 1 ∧
    (importRow g st n row).failed_records = st.failed_records := by
  cases hrc : rowCheck g row with
  | failure err => rw [rowOk, hrc] at hok; exact Bool.noConfusion hok
  | okRow la lo ty svcs =>
      simp only [importRow, hrc]
      by_cases hex : (st.stores.find? (fun s => decide (s.store_id = row.store_id))).isSome
      · rw [if_pos hex]
        refine ⟨?_, rfl⟩
        show st.created + (st.updated + 1) = st.created + st.updated + 1
        omega
      · rw [if_neg hex]
        refine ⟨?_, rfl⟩
        show st.created + 1 + st.updated = st.created + st.updated + 1
        omega

/-- A failing row appends exactly its failure record and leaves the
counters alone. -/
theorem importRow_fail {g : String → Option GeocodeResult} {row : CsvRow} {err : String}
    (hf : rowCheck g row = .failure err) (st : ImportState) (n : ℕ) :
    (importRow g st n row).created = st.created ∧
    (importRow g st n row).updated = st.updated ∧
    (importRow g st n row).failed_records
        = st.failed_records ++ [⟨n, row.store_id, "failed", some err⟩] := by
  rw [importRow, hf]
  exact ⟨rfl, rfl, rfl⟩

/-- A run of valid rows adds its length to created + updated and leaves the
failure list alone. -/
theorem importRows_allOk {g : String → Option GeocodeResult} :
    ∀ (rows : List CsvRow) (st : ImportState) (n : ℕ),
      (∀ r ∈ rows, rowOk g r = true) →
      (importRows g st n rows).created + (importRows g st n rows).updated
          = st.created + st.updated + rows.length ∧
      (importRows g st n rows).failed_records = st.failed_records := by
  intro rows
  induction rows with
  | nil => intro st n _; exact ⟨by simp [importRows], rfl⟩
  | cons r rest ih =>
      intro st n hall
      rw [importRows]
      have hr := importRow_ok (hall r (List.mem_cons_self ..)) st n
      have hrest := ih (importRow g st n r) (n + 1)
        (fun x hx => hall x (List.mem_cons_of_mem _ hx))
      refine ⟨?_, by rw [hrest.2, hr.2]⟩
      rw [hrest.1, hr.1]
      simp [List.length_cons]
      omega

/-- importRows distributes over list append. -/
theorem importRows_append {g : String → Option GeocodeResult} :
    ∀ (l1 l2 : List CsvRow) (st : ImportState) (n : ℕ),
      importRows g st n (l1 ++ l2)
        = importRows g (importRows g st n l1) (n + l1.length) l2 := by
  intro l1
  induction l1 with
  | nil => intro l2 st n; simp [importRows]
  | cons r rest ih =>
      intro l2 st n
      rw [List.cons_append, importRows, importRows, ih]
      simp [Nat.add_comm, Nat.add_assoc, Nat.add_left_comm]

/-- C7 (amended): the import whitelist is regular/flagship/outlet/pop-up
(checked case-insensitively), not the StoreType enum - a row whose
store_type is express fails, one with pop-up upserts.  With that whitelist
the claimed batch arithmetic holds: in a batch whose rows all pass
validation except the one at zero-based position pre.length, whose
store_type is rejected, created + updated = N - 1, failed = 1, and the one
failure record carries row_number = pre.length + 2 (the 1-based data row k
= pre.length + 1 plus the header offset, i.e. k + 1), and the batch is
never aborted - every other row still upserts. -/
theorem C7_batch_arithmetic (g : String → Option GeocodeResult)
    (db : List Store) (assoc : List (String × String))
    (cache : SimpleCache SearchCacheKey StoreSearchResponse)
    (pre post : List CsvRow) (bad : CsvRow)
    (hpre : ∀ r ∈ pre, rowOk g r = true) (hpost : ∀ r ∈ post, rowOk g r = true)
    (hbad : rowCheck g bad
      = .failure "Invalid store_type. Must be one of: regular, flagship, outlet, pop-up") :
    (bulk_import_stores g db assoc cache (pre ++ bad :: post)).1.created
        + (bulk_import_stores g db assoc cache (pre ++ bad :: post)).1.updated
      = (pre ++ bad :: post).length - 1 ∧
    (bulk_import_stores g db assoc cache (pre ++ bad :: post)).1.failed = 1 ∧
    (bulk_import_stores g db assoc cache (pre ++ bad :: post)).1.failed_records
      = [⟨pre.length + 2, bad.store_id, "failed",
          some "Invalid store_type. Must be one of: regular, flagship, outlet, pop-up"⟩] ∧
    (bulk_import_stores g db assoc cache (pre ++ bad :: post)).1.total_rows
      = (pre ++ bad :: post).length := by
  have hsplit : importRows g ⟨db, assoc, 0, 0, []⟩ 2 (pre ++ bad :: post)
      = importRows g
          (importRow g (importRows g ⟨db, assoc, 0, 0, []⟩ 2 pre) (2 + pre.length) bad)
          (2 + pre.length + 1) post := by
    rw [importRows_append, importRows]
  have h1 := importRows_allOk (g := g) pre ⟨db, assoc, 0, 0, []⟩ 2 hpre
  have h2 := importRow_fail hbad (importRows g ⟨db, assoc, 0, 0, []⟩ 2 pre) (2 + pre.length)
  have h3 := importRows_allOk (g := g) post
      (importRow g (importRows g ⟨db, assoc, 0, 0, []⟩ 2 pre) (2 + pre.length) bad)
      (2 + pre.length + 1) hpost
  have hfr : (importRows g ⟨db, assoc, 0, 0, []⟩ 2 (pre ++ bad :: post)).failed_records
      = [⟨pre.length + 2, bad.store_id, "failed",
          some "Invalid store_type. Must be one of: regular, flagship, outlet, pop-up"⟩] := by
    rw [hsplit, h3.2, h2.2.2, h1.2]
    simp [Nat.add_comm]
  have hcu : (importRows g ⟨db, assoc, 0, 0, []⟩ 2 (pre ++ bad :: post)).created
      + (importRows g ⟨db, assoc, 0, 0, []⟩ 2 (pre ++ bad :: post)).updated
      = pre.length + post.length := by
    rw [hsplit, h3.1, h2.1, h2.2.1, h1.1]
    have hc0 : (⟨db, assoc, 0, 0, []⟩ : ImportState).created = 0 := rfl
    have hu0 : (⟨db, assoc, 0, 0, []⟩ : ImportState).updated = 0 := rfl
    rw [hc0, hu0]
    omega
  refine ⟨?_, ?_, ?_, ?_⟩
  · show (importRows g ⟨db, assoc, 0, 0, []⟩ 2 (pre ++ bad :: post)).created
        + (importRows g ⟨db, assoc, 0, 0, []⟩ 2 (pre ++ bad :: post)).updated = _
    rw [hcu]
    simp [List.length_append, List.length_cons]
  · show (importRows g ⟨db, assoc, 0, 0, []⟩ 2 (pre ++ bad :: post)).failed_records.length = 1
    rw [hfr]
    rfl
  · exact hfr
  · show (importRows g ⟨db, assoc, 0, 0, []⟩ 2 (pre ++ bad :: post)).created
        + (importRows g ⟨db, assoc, 0, 0, []⟩ 2 (pre ++ bad :: post)).updated
        + (importRows g ⟨db, assoc, 0, 0, []⟩ 2 (pre ++ bad :: post)).failed_records.length
        = _
    rw [hcu, hfr]
    simp [List.length_append, List.length_cons]
    omega

/-- A well-formed CSV row (coordinates supplied) with the given
store_type. -/
def sampleRow (sid ty : String) : CsvRow :=
  { store_id := sid, name := "Store " ++ sid, store_type := ty
    address_street := "1 Main St", address_city := "NYC", address_state := "NY"
    address_postal_code := "10001"
    latitude := some "40.7128", longitude := some "-74.0060" }

/-- C7 counterexample: a fully valid row whose store_type is express - a
member of the StoreType enum the claim names - fails the import (failed = 1,
nothing upserted), while the enum-foreign value pop-up upserts; the
whitelist in the code is regular/flagship/outlet/pop-up, not the enum. -/
theorem C7_counterexample :
    (bulk_import_stores (fun _ => none) [] [] (emptyCache _ _)
        [sampleRow "S1" "express"]).1.failed = 1 ∧
    (bulk_import_stores (fun _ => none) [] [] (emptyCache _ _)
        [sampleRow "S1" "express"]).1.created = 0 ∧
    (bulk_import_stores (fun _ => none) [] [] (emptyCache _ _)
        [sampleRow "S1" "express"]).1.updated = 0 ∧
    rowCheck (fun _ => none) (sampleRow "S1" "express")
      = .failure "Invalid store_type. Must be one of: regular, flagship, outlet, pop-up" ∧
    (bulk_import_stores (fun _ => none) [] [] (emptyCache _ _)
        [sampleRow "S1" "pop-up"]).1.created = 1 :=
  ⟨by with_unfolding_all rfl, by with_unfolding_all rfl, by with_unfolding_all rfl,
   by with_unfolding_all rfl, by with_unfolding_all rfl⟩

/-- C7 witness: a three-row batch - valid, invalid store_type, valid -
yields created + updated = 2, failed = 1, and the failure record for data
row 2 carries row_number 3. -/
theorem C7_witness :
    (bulk_import_stores (fun _ => none) [] [] (emptyCache _ _)
        [sampleRow "S1" "regular", sampleRow "S2" "express",
         sampleRow "S3" "pop-up"]).1.created
      + (bulk_import_stores (fun _ => none) [] [] (emptyCache _ _)
          [sampleRow "S1" "regular", sampleRow "S2" "express",
           sampleRow "S3" "pop-up"]).1.updated = 2 ∧
    (bulk_import_stores (fun _ => none) [] [] (emptyCache _ _)
        [sampleRow "S1" "regular", sampleRow "S2" "express",
         sampleRow "S3" "pop-up"]).1.failed = 1 ∧
    (bulk_import_stores (fun _ => none) [] [] (emptyCache _ _)
        [sampleRow "S1" "regular", sampleRow "S2" "express",
         sampleRow "S3" "pop-up"]).1.failed_records
      = [⟨3, "S2", "failed",
          some "Invalid store_type. Must be one of: regular, flagship, outlet, pop-up"⟩] := by
  have h := C7_batch_arithmetic (fun _ => none) [] [] (emptyCache _ _)
    [sampleRow "S1" "regular"] [sampleRow "S3" "pop-up"] (sampleRow "S2" "express")
    (by
      intro r hr
      rw [List.mem_singleton] at hr
      subst hr
      with_unfolding_all rfl)
    (by
      intro r hr
      rw [List.mem_singleton] at hr
      subst hr
      with_unfolding_all rfl)
    (by with_unfolding_all rfl)
  exact ⟨h.1, h.2.1, h.2.2.1⟩

/-- C8 (amended): the three store CRUD mutations - create, partial update,
soft delete - clear the whole search cache before acknowledging success
(every successful return carries the emptied cache), but the bulk CSV
importing route never touches the cache: it returns the cache exactly as
it received it, so a search after an import can still serve a cached
pre-import result. -/
theorem C8_cache_invalidation (geocode : String → Option GeocodeResult)
    (st : StoresState) (data : StoreCreate) (sid : String) (upd : StoreUpdate)
    (db : List Store) (assoc : List (String × String))
    (cache : SimpleCache SearchCacheKey StoreSearchResponse) (rows : List CsvRow) :
    (∀ out st2, create_store geocode st data = (.ok out, st2) →
        st2.cache = emptyCache _ _) ∧
    (∀ out st2, update_store st sid upd = (.ok out, st2) →
        st2.cache = emptyCache _ _) ∧
    (∀ st2, delete_store st sid = (.ok (), st2) →
        st2.cache = emptyCache _ _) ∧
    (bulk_import_stores geocode db assoc cache rows).2.2 = cache := by
  refine ⟨?_, ?_, ?_, rfl⟩
  · intro out st2 h
    by_cases hdup : (st.db.find? (fun s => decide (s.store_id = data.store_id))).isSome
    · rw [create_store, if_pos hdup, Prod.mk.injEq] at h
      exact Except.noConfusion h.1
    · rw [create_store, if_neg hdup] at h
      exact (congrArg (fun p => p.2.cache) h).symm.trans rfl
  · intro out st2 h
    cases hfind : st.db.find? (fun s => decide (s.store_id = sid)) with
    | none =>
        rw [update_store, hfind, Prod.mk.injEq] at h
        exact Except.noConfusion h.1
    | some s =>
        rw [update_store, hfind] at h
        exact (congrArg (fun p => p.2.cache) h).symm.trans rfl
  · intro st2 h
    cases hfind : st.db.find? (fun s => decide (s.store_id = sid)) with
    | none =>
        rw [delete_store, hfind, Prod.mk.injEq] at h
        exact Except.noConfusion h.1
    | some s =>
        rw [delete_store, hfind] at h
        exact (congrArg (fun p => p.2.cache) h).symm.trans rfl

/-- A non-empty search cache holding one stale entry. -/
def staleCache : SimpleCache SearchCacheKey StoreSearchResponse :=
  ⟨[(⟨0, 0, 10, none, none⟩,
     ⟨⟨[], .coordinates 0 0, ⟨10, [], [], none⟩, 0⟩, 300, 0⟩)]⟩

/-- C8 counterexample: a bulk import that creates a store acknowledges
success (created = 1) while returning the non-empty search cache unchanged -
no invalidation happens, contradicting the claim that every store mutation
clears the cache before acknowledging success. -/
theorem C8_counterexample :
    (bulk_import_stores (fun _ => none) [] [] staleCache
        [sampleRow "S1" "regular"]).2.2 = staleCache ∧
    staleCache ≠ emptyCache SearchCacheKey StoreSearchResponse ∧
    (bulk_import_stores (fun _ => none) [] [] staleCache
        [sampleRow "S1" "regular"]).1.created = 1 :=
  ⟨rfl, fun h => List.noConfusion (congrArg SimpleCache.entries h),
   by with_unfolding_all rfl⟩

/-- The store row inserted by the C8 witness create call. -/
def newStoreC : Store :=
  ⟨"S1", "A", "regular", .active, some 40, some 5, "1 Main St", "NYC", "NY",
   "10001", "USA", none, "closed", "closed", "closed", "closed", "closed",
   "closed", "closed"⟩

/-- C8 witness: a concrete successful create returns the emptied cache, and
a concrete import returns the stale cache untouched. -/
theorem C8_witness :
    (create_store (fun _ => none) ⟨[], [], staleCache⟩
        { store_id := "S1", name := "A", store_type := .regular
          address_street := "1 Main St", address_city := "NYC"
          address_state := "NY", address_postal_code := "10001"
          latitude := some 40, longitude := some 5 }).2.cache
      = emptyCache SearchCacheKey StoreSearchResponse ∧
    (bulk_import_stores (fun _ => none) [] [] staleCache []).2.2 = staleCache := by
  constructor
  · exact (C8_cache_invalidation (fun _ => none) ⟨[], [], staleCache⟩
      { store_id := "S1", name := "A", store_type := .regular
        address_street := "1 Main St", address_city := "NYC"
        address_state := "NY", address_postal_code := "10001"
        latitude := some 40, longitude := some 5 } "X" {} [] [] staleCache []).1
      (newStoreC, [])
      ((create_store (fun _ => none) ⟨[], [], staleCache⟩
        { store_id := "S1", name := "A", store_type := .regular
          address_street := "1 Main St", address_city := "NYC"
          address_state := "NY", address_postal_code := "10001"
          latitude := some 40, longitude := some 5 }).2)
      (by with_unfolding_all rfl)
  · exact (C8_cache_invalidation (fun _ => none) ⟨[], [], staleCache⟩
      { store_id := "S1", name := "A", store_type := .regular
        address_street := "1 Main St", address_city := "NYC"
        address_state := "NY", address_postal_code := "10001"
        latitude := some 40, longitude := some 5 } "X" {} [] [] staleCache []).2.2.2

/-- Stable insertion permutes. -/
theorem insertByDist_perm (x : SearchResultEntry) (l : List SearchResultEntry) :
    (insertByDist x l).Perm (x :: l) := by
  induction l with
  | nil => exact List.Perm.refl _
  | cons y ys ih =>
      rw [insertByDist]
      cases hc : decide (y.distance_miles ≤ x.distance_miles) with
      | true =>
          rw [if_pos rfl]
          exact (ih.cons y).trans (List.Perm.swap x y ys)
      | false =>
          rw [if_neg (by simp)]

/-- The distance sort permutes the result list. -/
theorem sortResults_perm (l : List SearchResultEntry) : (sortResults l).Perm l := by
  induction l with
  | nil => exact List.Perm.refl _
  | cons x xs ih =>
      rw [sortResults]
      exact (insertByDist_perm x (sortResults xs)).trans (ih.cons x)

/-- Any entry of the per-candidate loop output comes from a candidate store
whose exact (unrounded) distance is within the radius; the entry records
that store, its rounded distance, and its open flag. -/
theorem buildResults_mem {env : GeoEnv} {clock : Clock} {r : StoreSearchRequest}
    {assoc : List (String × String)} {la lo : ℚ} {stores : List Store}
    {e : SearchResultEntry}
    (he : e ∈ buildResults env clock r assoc la lo stores) :
    ∃ s ∈ stores, e.store = s ∧
      env.dist la lo (s.latitude.getD 0) (s.longitude.getD 0) ≤ r.radius_miles := by
  obtain ⟨s, hs, hf⟩ := List.mem_filterMap.mp he
  refine ⟨s, hs, ?_⟩
  cases hd : decide (env.dist la lo (s.latitude.getD 0) (s.longitude.getD 0)
      > r.radius_miles) with
  | true => simp [hd] at hf
  | false =>
      have hle : env.dist la lo (s.latitude.getD 0) (s.longitude.getD 0)
          ≤ r.radius_miles := not_lt.mp (of_decide_eq_false hd)
      refine ⟨?_, hle⟩
      rw [if_neg (by simp [hd])] at hf
      cases hsv : (truthyL r.services &&
          !((r.services.getD []).all (fun x =>
              decide (x ∈ storeServices assoc s.store_id)))) with
      | true => rw [if_pos hsv] at hf; exact Option.noConfusion hf
      | false =>
          rw [if_neg (by simp [hsv])] at hf
          cases hop : (truthyB r.open_now &&
              !is_store_open_now s.hoursDict clock.weekday clock.tod) with
          | true => rw [if_pos hop] at hf; exact Option.noConfusion hf
          | false =>
              rw [if_neg (by simp [hop])] at hf
              rw [← Option.some.inj hf]

/-- A candidate from the bounding-box query is a database row with status
active. -/
theorem searchCandidates_mem {env : GeoEnv} {r : StoreSearchRequest} {la lo : ℚ}
    {db : List Store} {s : Store} (hs : s ∈ searchCandidates env r la lo db) :
    s ∈ db ∧ s.status = StoreStatus.active := by
  have h1 := List.mem_filter.mp hs
  have h2 := List.mem_filter.mp h1.1
  refine ⟨h2.1, ?_⟩
  have h3 := h2.2
  rw [Bool.and_eq_true, Bool.and_eq_true] at h3
  exact of_decide_eq_true h3.2

/-- The search_location record of a resolved origin carries exactly the
resolved coordinates. -/
theorem resolveOrigin_loc {env : GeoEnv} {r : StoreSearchRequest} {la lo : ℚ}
    {loc : SearchLocation} (h : resolveOrigin env r = .ok (la, lo, loc)) :
    loc.lat = la ∧ loc.lon = lo := by
  rw [resolveOrigin] at h
  by_cases h1 : (truthyF r.latitude && truthyF r.longitude) = true
  · rw [if_pos h1] at h
    obtain ⟨h2, h3, h4⟩ := Prod.mk.injEq .. ▸ Prod.mk.injEq .. ▸ Except.ok.inj h
    subst h2
    subst h4
    exact ⟨h3 ▸ rfl, h3 ▸ rfl⟩
  · rw [if_neg h1] at h
    by_cases h5 : truthyS r.postal_code = true
    · rw [if_pos h5] at h
      cases hg : env.geocode_postal_code (r.postal_code.getD "") with
      | none => rw [hg] at h; exact Except.noConfusion h
      | some g =>
          rw [hg] at h
          obtain ⟨h2, h3, h4⟩ := Prod.mk.injEq .. ▸ Prod.mk.injEq .. ▸ Except.ok.inj h
          subst h2
          subst h4
          exact ⟨h3 ▸ rfl, h3 ▸ rfl⟩
    · rw [if_neg h5] at h
      by_cases h6 : truthyS r.address = true
      · rw [if_pos h6] at h
        cases hg : env.geocode_address (r.address.getD "") with
        | none => rw [hg] at h; exact Except.noConfusion h
        | some g =>
            rw [hg] at h
            obtain ⟨h2, h3, h4⟩ := Prod.mk.injEq .. ▸ Prod.mk.injEq .. ▸ Except.ok.inj h
            subst h2
            subst h4
            exact ⟨h3 ▸ rfl, h3 ▸ rfl⟩
      · rw [if_neg h6] at h
        exact Except.noConfusion h

/-- get on the empty cache misses and returns the empty cache. -/
theorem emptyCache_get (now : ℚ) (k : SearchCacheKey) :
    (emptyCache SearchCacheKey StoreSearchResponse).get now k
      = (none, emptyCache SearchCacheKey StoreSearchResponse) := rfl

/-- A successful search from the empty cache is the computed response of
the resolved origin. -/
theorem search_stores_empty_ok {env : GeoEnv} {clock : Clock} {db : List Store}
    {assoc : List (String × String)} {r : StoreSearchRequest}
    {resp : StoreSearchResponse}
    (h : (search_stores env clock db assoc (emptyCache _ _) r).1 = .ok resp) :
    ∃ la lo loc, resolveOrigin env r = .ok (la, lo, loc) ∧
      resp = searchCompute env clock r db assoc la lo loc := by
  rw [search_stores] at h
  cases hres : resolveOrigin env r with
  | error e =>
      exfalso
      by_cases hca : cacheableRequest r = true
      · rw [if_pos hca] at h
        simp only [emptyCache_get, hres] at h
        exact Except.noConfusion h
      · rw [if_neg hca, hres] at h
        exact Except.noConfusion h
  | ok v =>
      obtain ⟨la, lo, loc⟩ := v
      refine ⟨la, lo, loc, rfl, ?_⟩
      by_cases hca : cacheableRequest r = true
      · rw [if_pos hca] at h
        simp only [emptyCache_get, hres] at h
        exact (Except.ok.inj h).symm
      · rw [if_neg hca, hres] at h
        exact (Except.ok.inj h).symm

/-- C2 (confirmed): whenever a search (run against a cold cache, so the
response is freshly computed) succeeds, every store in the results lies
within the requested radius under the exact distance function measured from
the resolved origin, and a database store whose exact distance strictly
exceeds the radius never appears - even if its coordinates fall inside the
bounding box, the exact-distance filter removes it. -/
theorem C2_radius_filter (env : GeoEnv) (clock : Clock) (db : List Store)
    (assoc : List (String × String)) (r : StoreSearchRequest)
    (resp : StoreSearchResponse)
    (h : (search_stores env clock db assoc (emptyCache _ _) r).1 = .ok resp) :
    (∀ e ∈ resp.results,
      env.dist resp.search_location.lat resp.search_location.lon
        (e.store.latitude.getD 0) (e.store.longitude.getD 0) ≤ r.radius_miles) ∧
    (∀ s ∈ db, env.dist resp.search_location.lat resp.search_location.lon
        (s.latitude.getD 0) (s.longitude.getD 0) > r.radius_miles →
      ∀ e ∈ resp.results, e.store ≠ s) := by
  obtain ⟨la, lo, loc, hres, hcomp⟩ := search_stores_empty_ok h
  obtain ⟨hlat, hlon⟩ := resolveOrigin_loc hres
  subst hcomp
  have hsl : (searchCompute env clock r db assoc la lo loc).search_location = loc := rfl
  have hrl : (searchCompute env clock r db assoc la lo loc).results
      = sortResults (buildResults env clock r assoc la lo
          (searchCandidates env r la lo db)) := rfl
  constructor
  · intro e he
    rw [hrl] at he
    obtain ⟨s, _, hstore, hdist⟩ := buildResults_mem ((sortResults_perm _).mem_iff.mp he)
    rw [hsl, hlat, hlon, hstore]
    exact hdist
  · intro s _ hfar e he hes
    rw [hrl] at he
    obtain ⟨s2, _, hstore, hdist⟩ := buildResults_mem ((sortResults_perm _).mem_iff.mp he)
    rw [hsl, hlat, hlon] at hfar
    rw [hes] at hstore
    rw [hstore] at hfar
    exact absurd hdist (not_le.mpr hfar)

/-- Collaborators for the concrete witness runs: geocoders that always
fail, a unit cosine and the everywhere-zero distance. -/
def sampleEnv : GeoEnv :=
  { geocode_postal_code := fun _ => none
    geocode_address := fun _ => none
    cosd := fun _ => 1
    dist := fun _ _ _ _ => 0 }

/-- A fixed evaluation instant: utc second 1000, Monday noon. -/
def sampleClock : Clock := ⟨1000, 0, timeHM 12 0⟩

/-- An active store at (40, 5), open Mondays 09:00-21:00. -/
def sampleStore : Store :=
  { store_id := "S1", name := "A", store_type := "regular", status := .active
    latitude := some 40, longitude := some 5
    address_street := "1 Main St", address_city := "NYC", address_state := "NY"
    address_postal_code := "10001", address_country := "USA", phone := none
    hours_mon := "09:00-21:00", hours_tue := "closed", hours_wed := "closed"
    hours_thu := "closed", hours_fri := "closed", hours_sat := "closed"
    hours_sun := "closed" }

/-- A coordinate search request at (40, 5) with the default 10-mile
radius. -/
def sampleReq : StoreSearchRequest :=
  { latitude := some 40, longitude := some 5, radius_miles := 10 }

/-- The response the pipeline computes for sampleReq over [sampleStore]. -/
def sampleResp : StoreSearchResponse :=
  { results := [⟨sampleStore, [], 0, true⟩]
    search_location := .coordinates 40 5
    filters_applied := ⟨10, [], [], none⟩
    total_results := 1 }

/-- C2 witness: the concrete run returns sampleResp, and its single entry
satisfies the radius bound given by the theorem. -/
theorem C2_witness :
    (search_stores sampleEnv sampleClock [sampleStore] [] (emptyCache _ _)
        sampleReq).1 = .ok sampleResp ∧
    sampleEnv.dist sampleResp.search_location.lat sampleResp.search_location.lon
        ((⟨sampleStore, [], 0, true⟩ : SearchResultEntry).store.latitude.getD 0)
        ((⟨sampleStore, [], 0, true⟩ : SearchResultEntry).store.longitude.getD 0)
      ≤ sampleReq.radius_miles := by
  have hrun : (search_stores sampleEnv sampleClock [sampleStore] [] (emptyCache _ _)
      sampleReq).1 = .ok sampleResp := by with_unfolding_all rfl
  exact ⟨hrun,
    (C2_radius_filter sampleEnv sampleClock [sampleStore] [] sampleReq sampleResp hrun).1
      ⟨sampleStore, [], 0, true⟩ (List.mem_singleton.mpr rfl)⟩

/-- C10 (confirmed): the authenticated listing returns the paginated window
of the store table with no status condition of any kind (an inactive or
temporarily_closed row inside the window is included); the point lookup
returns whatever row matches the id, its status never consulted; only the
search pipeline restricts its results to active stores. -/
theorem C10_no_status_filter (db : List Store) (assoc : List (String × String))
    (skip limit : ℕ) (sid : String) (env : GeoEnv) (clock : Clock)
    (r : StoreSearchRequest) (la lo : ℚ) (loc : SearchLocation) :
    (∀ s, s ∈ (db.drop skip).take limit →
      (s, storeServices assoc s.store_id) ∈ get_all_stores db assoc skip limit) ∧
    (∀ s, db.find? (fun t => decide (t.store_id = sid)) = some s →
      get_store db assoc sid = .ok (s, storeServices assoc s.store_id)) ∧
    (∀ e ∈ (searchCompute env clock r db assoc la lo loc).results,
      e.store.status = StoreStatus.active) := by
  refine ⟨?_, ?_, ?_⟩
  · intro s hs
    rw [get_all_stores]
    exact List.mem_map_of_mem _ hs
  · intro s hf
    rw [get_store, hf]
  · intro e he
    have hrl : (searchCompute env clock r db assoc la lo loc).results
        = sortResults (buildResults env clock r assoc la lo
            (searchCandidates env r la lo db)) := rfl
    rw [hrl] at he
    obtain ⟨s, hs, hstore, _⟩ := buildResults_mem ((sortResults_perm _).mem_iff.mp he)
    rw [hstore]
    exact (searchCandidates_mem hs).2

/-- An inactive (soft-deleted) store. -/
def sampleInactive : Store := { sampleStore with store_id := "S9", status := .inactive }

/-- C10 witness: the inactive store is listed by GET /stores and returned
by GET /stores/S9, while the search over a database holding the active
sampleStore yields only active entries (its one result is sampleStore). -/
theorem C10_witness :
    (sampleInactive, storeServices [] "S9")
        ∈ get_all_stores [sampleInactive] [] 0 50 ∧
    get_store [sampleInactive] [] "S9"
        = .ok (sampleInactive, storeServices [] "S9") ∧
    (⟨sampleStore, [], 0, true⟩ : SearchResultEntry).store.status
        = StoreStatus.active := by
  have h := C10_no_status_filter [sampleInactive] [] 0 50 "S9" sampleEnv sampleClock
    sampleReq 40 5 (.coordinates 40 5)
  have h2 := C10_no_status_filter [sampleStore] [] 0 50 "S1" sampleEnv sampleClock
    sampleReq 40 5 (.coordinates 40 5)
  refine ⟨h.1 sampleInactive (by simp), h.2.1 sampleInactive rfl, ?_⟩
  have hres : (searchCompute sampleEnv sampleClock sampleReq [sampleStore] [] 40 5
      (.coordinates 40 5)).results = [⟨sampleStore, [], 0, true⟩] := by
    with_unfolding_all rfl
  exact h2.2.2 ⟨sampleStore, [], 0, true⟩ (by rw [hres]; exact List.mem_singleton.mpr rfl)

/-- C1 (amended): coordinate mode is selected - taking precedence over
postal_code and address - exactly when both latitude and longitude are
truthy, i.e. present AND nonzero (the handler tests the floats for Python
truthiness, so 0.0 counts as absent); a pair containing 0.0 is not treated
as a coordinate origin: with latitude 0.0 the request already fails the
pydantic validator unless another origin mode is present, and with only a
zero longitude the handler falls through and, absent postal_code/address,
fails with the 400 "Must provide either ..." error.  A request with exactly
one of latitude/longitude fails validation, as does a request with none of
the three origin modes. -/
theorem C1_origin_resolution (env : GeoEnv) (clock : Clock) (db : List Store)
    (assoc : List (String × String)) (r : StoreSearchRequest) :
    (truthyF r.latitude = true → truthyF r.longitude = true →
      resolveOrigin env r = .ok (r.latitude.getD 0, r.longitude.getD 0,
        .coordinates (r.latitude.getD 0) (r.longitude.getD 0))) ∧
    (truthyF r.latitude = true → truthyF r.longitude = true →
      (search_stores env clock db assoc (emptyCache _ _) r).1
        = .ok (searchCompute env clock r db assoc
            (r.latitude.getD 0) (r.longitude.getD 0)
            (.coordinates (r.latitude.getD 0) (r.longitude.getD 0)))) ∧
    (r.latitude.isSome = true → r.longitude = none →
      validateStoreSearchRequest r = false) ∧
    (r.longitude.isSome = true → r.latitude = none →
      validateStoreSearchRequest r = false) ∧
    (truthyS r.address = false → truthyS r.postal_code = false →
      truthyF r.latitude = false → validateStoreSearchRequest r = false) ∧
    ((truthyF r.latitude && truthyF r.longitude) = false →
      truthyS r.postal_code = false → truthyS r.address = false →
      resolveOrigin env r = .error ⟨400,
        "Must provide either address, postal_code, or coordinates (latitude & longitude)"⟩) := by
  have hres : truthyF r.latitude = true → truthyF r.longitude = true →
      resolveOrigin env r = .ok (r.latitude.getD 0, r.longitude.getD 0,
        .coordinates (r.latitude.getD 0) (r.longitude.getD 0)) := by
    intro h1 h2
    rw [resolveOrigin, if_pos (by rw [h1, h2]; rfl)]
  refine ⟨hres, ?_, ?_, ?_, ?_, ?_⟩
  · intro h1 h2
    simp only [search_stores, emptyCache_get, hres h1 h2]
    split <;> rfl
  · intro h1 h2
    simp [validateStoreSearchRequest, h1, h2]
  · intro h1 h2
    simp [validateStoreSearchRequest, h1, h2]
  · intro ha hp hlat
    simp [validateStoreSearchRequest, ha, hp, hlat]
  · intro hc hp haddr
    rw [resolveOrigin, if_neg (by simp [hc]), if_neg (by simp [hp]),
      if_neg (by simp [haddr])]

/-- C1 counterexample: the request with latitude 0.0 and longitude 10.0 -
both inside their valid ranges and both present - is rejected by the
validator with a 422 instead of resolving to those coordinates; and the
request (5.0, 0.0) passes validation but the handler, treating the zero
longitude as absent, answers the 400 "Must provide either ..." error. -/
theorem C1_counterexample :
    validateStoreSearchRequest
        { latitude := some 0, longitude := some 10, radius_miles := 10 } = false ∧
    (postStoresSearch sampleEnv sampleClock [] [] (emptyCache _ _)
        { latitude := some 0, longitude := some 10, radius_miles := 10 }).1
      = .error ⟨422, "Validation error"⟩ ∧
    (search_stores sampleEnv sampleClock [] [] (emptyCache _ _)
        { latitude := some 5, longitude := some 0, radius_miles := 10 }).1
      = .error ⟨400,
          "Must provide either address, postal_code, or coordinates (latitude & longitude)"⟩ :=
  ⟨by with_unfolding_all rfl, by with_unfolding_all rfl, by with_unfolding_all rfl⟩

/-- C1 witness: a truthy coordinate pair resolves to itself even though a
postal code is also supplied, and the endpoint returns the computed
response for that origin. -/
theorem C1_witness :
    resolveOrigin sampleEnv
        { sampleReq with postal_code := some "10001" }
      = .ok (40, 5, .coordinates 40 5) ∧
    (search_stores sampleEnv sampleClock [sampleStore] [] (emptyCache _ _)
        sampleReq).1
      = .ok (searchCompute sampleEnv sampleClock sampleReq [sampleStore] [] 40 5
          (.coordinates 40 5)) := by
  constructor
  · exact (C1_origin_resolution sampleEnv sampleClock [sampleStore] []
      { sampleReq with postal_code := some "10001" }).1
      (by with_unfolding_all rfl) (by with_unfolding_all rfl)
  · exact (C1_origin_resolution sampleEnv sampleClock [sampleStore] [] sampleReq).2.1
      (by with_unfolding_all rfl) (by with_unfolding_all rfl)

/-- A cache hit leaves the cache untouched. -/
theorem SimpleCache.get_hit {K V : Type} [DecidableEq K]
    {c : SimpleCache K V} {now : ℚ} {k : K} {v : V} {c2 : SimpleCache K V}
    (h : c.get now k = (some v, c2)) : c2 = c := by
  rw [SimpleCache.get] at h
  cases hf : c.entries.find? (fun p => decide (p.1 = k)) with
  | none =>
      simp only [hf] at h
      exact Option.noConfusion (Prod.mk.injEq .. ▸ h).1
  | some p =>
      simp only [hf] at h
      by_cases he : now > p.2.expires_at
      · rw [if_pos he] at h
        exact Option.noConfusion (Prod.mk.injEq .. ▸ h).1
      · rw [if_neg he] at h
        exact ((Prod.mk.injEq .. ▸ h).2).symm

/-- Reading a freshly written key within its TTL returns the written value
and changes nothing. -/
theorem SimpleCache.get_set {K V : Type} [DecidableEq K]
    (c : SimpleCache K V) (now now2 : ℚ) (k : K) (v : V) (ttl : ℚ)
    (hle : now2 ≤ now + ttl) :
    (c.set now k v ttl).get now2 k = (some v, c.set now k v ttl) := by
  rw [SimpleCache.set, SimpleCache.get]
  have hf : ((k, (⟨v, now + ttl, now⟩ : CacheEntry V)) ::
      c.entries.filter (fun q => !decide (q.1 = k))).find?
        (fun p => decide (p.1 = k)) = some (k, ⟨v, now + ttl, now⟩) := by
    rw [List.find?_cons_of_pos]
    simp
  simp only [hf]
  rw [if_neg (not_lt.mpr hle)]

/-- Sorting two permuted string lists gives the same list. -/
theorem sortStrings_perm_eq {l1 l2 : List String} (h : l1.Perm l2) :
    sortStrings l1 = sortStrings l2 := by
  rw [sortStrings, sortStrings]
  exact List.eq_of_perm_of_sorted
    ((List.perm_insertionSort (fun a b : String => a ≤ b) l1).trans
      (h.trans (List.perm_insertionSort (fun a b : String => a ≤ b) l2).symm))
    (List.sorted_insertionSort (fun a b : String => a ≤ b) l1)
    (List.sorted_insertionSort (fun a b : String => a ≤ b) l2)

/-- Permuted lists agree on Python truthiness. -/
theorem truthyL_perm {α : Type} [DecidableEq α] {l1 l2 : List α} (h : l1.Perm l2) :
    truthyL (some l1) = truthyL (some l2) := by
  by_cases he : l1 = []
  · subst he
    rw [h.nil_eq.symm]
  · have he2 : l2 ≠ [] := by
      intro h2
      subst h2
      exact he h.eq_nil
    simp [truthyL, he, he2]

/-- C3 (confirmed): the caching policy of the search endpoint.  A request
that is not coordinate-based-and-open_now-free never reads or writes the
cache and always recomputes; open_now makes a request non-cacheable; after
any successful cacheable call the cache serves that very response under the
request's key; re-running a cacheable search that started from a cold cache
- with any database, collaborators and clock, and any request with the same
key - within the TTL returns the identical first response; and the key is
blind to filter order (sorted services and store types) and to coordinate
digits beyond the 4-decimal rendering. -/
theorem C3_caching_policy (env : GeoEnv) (clock : Clock) (db : List Store)
    (assoc : List (String × String))
    (cache : SimpleCache SearchCacheKey StoreSearchResponse) (r : StoreSearchRequest) :
    (cacheableRequest r = false →
      search_stores env clock db assoc cache r
        = (searchFresh env clock db assoc r, cache)) ∧
    (truthyB r.open_now = true → cacheableRequest r = false) ∧
    (cacheableRequest r = true →
      ∀ resp c1, search_stores env clock db assoc cache r = (.ok resp, c1) →
        (c1.get clock.utc (searchCacheKey r)).1 = some resp) ∧
    (cacheableRequest r = true →
      ∀ resp c1, search_stores env clock db assoc (emptyCache _ _) r = (.ok resp, c1) →
        ∀ (env2 : GeoEnv) (clock2 : Clock) (db2 : List Store)
          (assoc2 : List (String × String)) (r2 : StoreSearchRequest),
          cacheableRequest r2 = true → searchCacheKey r2 = searchCacheKey r →
          clock2.utc ≤ clock.utc + SEARCH_TTL →
          (search_stores env2 clock2 db2 assoc2 c1 r2).1 = .ok resp) ∧
    (∀ (l1 l2 : List String) (t1 t2 : List StoreType), l1.Perm l2 → t1.Perm t2 →
      searchCacheKey { r with services := some l1, store_types := some t1 }
        = searchCacheKey { r with services := some l2, store_types := some t2 }) ∧
    (∀ la1 la2 lo1 lo2 : ℚ, fmt4 la1 = fmt4 la2 → fmt4 lo1 = fmt4 lo2 →
      searchCacheKey { r with latitude := some la1, longitude := some lo1 }
        = searchCacheKey { r with latitude := some la2, longitude := some lo2 }) := by
  refine ⟨?_, ?_, ?_, ?_, ?_, ?_⟩
  · intro hca
    rw [search_stores, if_neg (by simp [hca]), searchFresh]
    cases hres : resolveOrigin env r <;> rfl
  · intro hon
    simp [cacheableRequest, hon]
  · intro hca resp c1 h
    rw [search_stores, if_pos hca] at h
    cases hov : (cache.get clock.utc (searchCacheKey r)).1 with
    | some v =>
        simp only [hov] at h
        have hpair : cache.get clock.utc (searchCacheKey r)
            = (some v, (cache.get clock.utc (searchCacheKey r)).2) := by
          rw [← hov]
        have hc2 := SimpleCache.get_hit hpair
        rw [Prod.mk.injEq] at h
        obtain ⟨h1, h2⟩ := h
        rw [← h2, hc2, hov, Except.ok.inj h1]
    | none =>
        simp only [hov] at h
        cases hres : resolveOrigin env r with
        | error e =>
            rw [hres] at h
            rw [Prod.mk.injEq] at h
            exact Except.noConfusion h.1
        | ok v =>
            obtain ⟨la, lo, loc⟩ := v
            simp only [hres] at h
            rw [Prod.mk.injEq] at h
            obtain ⟨h1, h2⟩ := h
            rw [← h2, ← Except.ok.inj h1]
            rw [SimpleCache.get_set _ _ _ _ _ _
              (le_add_of_nonneg_right (by norm_num [SEARCH_TTL]))]
  · intro hca resp c1 h env2 clock2 db2 assoc2 r2 hca2 hkey hle
    rw [search_stores, if_pos hca] at h
    simp only [emptyCache_get] at h
    cases hres : resolveOrigin env r with
    | error e =>
        simp only [hres] at h
        rw [Prod.mk.injEq] at h
        exact Except.noConfusion h.1
    | ok v =>
        obtain ⟨la, lo, loc⟩ := v
        simp only [hres] at h
        rw [Prod.mk.injEq] at h
        obtain ⟨h1, h2⟩ := h
        have hresp := Except.ok.inj h1
        subst hresp
        subst h2
        rw [search_stores, if_pos hca2, hkey]
        simp only [SimpleCache.get_set (emptyCache SearchCacheKey StoreSearchResponse)
          clock.utc clock2.utc (searchCacheKey r)
          (searchCompute env clock r db assoc la lo loc) SEARCH_TTL hle]
  · intro l1 l2 t1 t2 hl htp
    simp only [searchCacheKey, SearchCacheKey.mk.injEq, Option.getD_some]
    refine ⟨trivial, trivial, trivial, ?_, ?_⟩
    · rw [truthyL_perm hl]
      by_cases hc : truthyL (some l2) = true
      · rw [if_pos hc, if_pos hc, sortStrings_perm_eq hl]
      · rw [if_neg (by simp [hc]), if_neg (by simp [hc])]
    · rw [truthyL_perm htp]
      by_cases hc : truthyL (some t2) = true
      · rw [if_pos hc, if_pos hc, sortStrings_perm_eq (htp.map StoreType.value)]
      · rw [if_neg (by simp [hc]), if_neg (by simp [hc])]
  · intro la1 la2 lo1 lo2 h1 h2
    simp only [searchCacheKey, SearchCacheKey.mk.injEq, Option.getD_some]
    exact ⟨h1, h2, trivial, trivial, trivial⟩

/-- The cache state after the first witness search: one entry under the
coordinate key, expiring at 1000 + 300. -/
def sampleCacheAfter : SimpleCache SearchCacheKey StoreSearchResponse :=
  ⟨[(⟨400000, 50000, 10, none, none⟩, ⟨sampleResp, 1300, 1000⟩)]⟩

/-- A later instant (utc 1200, Wednesday afternoon) still inside the
5-minute TTL of the first call. -/
def sampleClock2 : Clock := ⟨1200, 2, timeHM 15 0⟩

/-- C3 witness: the first coordinate search computes sampleResp and writes
it to the cache; 200 seconds later the same request against an EMPTY store
table returns the identical response - it was served from the cache. -/
theorem C3_witness :
    search_stores sampleEnv sampleClock [sampleStore] [] (emptyCache _ _) sampleReq
      = (.ok sampleResp, sampleCacheAfter) ∧
    (search_stores sampleEnv sampleClock2 [] [] sampleCacheAfter sampleReq).1
      = .ok sampleResp := by
  have hrun : search_stores sampleEnv sampleClock [sampleStore] [] (emptyCache _ _)
      sampleReq = (.ok sampleResp, sampleCacheAfter) := by with_unfolding_all rfl
  refine ⟨hrun, ?_⟩
  exact (C3_caching_policy sampleEnv sampleClock [sampleStore] [] (emptyCache _ _)
      sampleReq).2.2.2.1 (by with_unfolding_all rfl) sampleResp sampleCacheAfter hrun
    sampleEnv sampleClock2 [] [] sampleReq (by with_unfolding_all rfl) rfl
    (of_decide_eq_true (by with_unfolding_all rfl))

end StoreLocator
